import Mathlib

/-!
Verification development for the tado-x connector core
(`custom_components/tado/tado_connector.py` and the zone-sensor-map
normalization in `custom_components/tado/__init__.py`).

The Python code is shallowly embedded: heterogeneous Python values are the
inductive `Value`; Python dicts keyed by strings are association lists;
Python floats are idealized as rationals (`ℚ`); stateful methods become
explicit state-passing functions; remote-API calls become oracles passed in
as parameters; raised exceptions become `Except Exc`.
-/

set_option allowUnsafeReducibility true

attribute [local semireducible] Rat.add Rat.mul Rat.sub Rat.inv Rat.div

namespace TadoX

/-- Python values as they appear in normalized Tado records: `vInt` models a
Python int, `vRat` a Python float (idealized as a rational), `vDict` a dict
with string keys (the only key shape the connector builds). -/
inductive Value where
  | vNone
  | vStr (s : String)
  | vInt (n : Int)
  | vBool (b : Bool)
  | vRat (q : ℚ)
  | vList (l : List Value)
  | vDict (d : List (String × Value))

/-- Python truthiness (`bool(x)`): None, empty string, zero, False and empty
containers are falsy. -/
def pyTruthy : Value → Bool
  | .vNone => false
  | .vStr s => s != ""
  | .vInt n => n != 0
  | .vBool b => b
  | .vRat q => q != 0
  | .vList l => !l.isEmpty
  | .vDict d => !d.isEmpty

/-- Python `a or b`: returns `a` when truthy, else `b`. -/
def pyOr (a b : Value) : Value := if pyTruthy a then a else b

/-- Python `str()` for the scalar values the embedded code formats. Composite
values are never formatted on the embedded code paths, so their rendering is
a placeholder. -/
def pyStr : Value → String
  | .vNone => "None"
  | .vStr s => s
  | .vInt n => toString n
  | .vBool b => if b then "True" else "False"
  | .vRat q => toString q
  | .vList _ => "<list>"
  | .vDict _ => "<dict>"

/-- Python `==` between values. Scalars compare by value with Python's
numeric cross-type equality (`2 == 2.0`, `True == 1`); a scalar never equals
a composite. (Composite-composite comparison is not needed on the embedded
paths and is modelled as False.) -/
def scalarEq : Value → Value → Bool
  | .vNone, .vNone => true
  | .vStr a, .vStr b => a == b
  | .vInt a, .vInt b => a == b
  | .vBool a, .vBool b => a == b
  | .vRat a, .vRat b => a == b
  | .vInt a, .vRat b => decide ((a : ℚ) = b)
  | .vRat a, .vInt b => decide (a = (b : ℚ))
  | .vBool a, .vInt b => (if a then (1 : Int) else 0) == b
  | .vInt a, .vBool b => a == (if b then (1 : Int) else 0)
  | .vBool a, .vRat b => decide ((if a then (1 : ℚ) else 0) = b)
  | .vRat a, .vBool b => decide (a = (if b then (1 : ℚ) else 0))
  | _, _ => false

/-- A normalized record: a Python dict with string keys, as an assoc list
(keys are unique in every record the connector builds). -/
abbrev Device := List (String × Value)

/-- Python `k in d` for a string-keyed dict. -/
def hasKey (d : Device) (k : String) : Bool := d.any (fun p => p.1 == k)

/-- Python `d.get(k)`: None when the key is absent. -/
def dictGet (d : Device) (k : String) : Value :=
  match d.find? (fun p => p.1 == k) with
  | some p => p.2
  | none => .vNone

/-- Python `d.get(k, default)`: the default only when the key is absent (a
stored None is returned as None). -/
def dictGetD (d : Device) (k : String) (dflt : Value) : Value :=
  if hasKey d k then dictGet d k else dflt

/-- String-keyed dict of floats (`_device_offsets`, `_device_offsets_current`,
`_device_type_offsets`). -/
abbrev QMap := List (String × ℚ)

/-- String-keyed dict of strings (`_device_id_overrides`, `_device_zone_map`). -/
abbrev SMap := List (String × String)

def lookupQ (m : QMap) (k : String) : Option ℚ :=
  (m.find? (fun p => p.1 == k)).map (fun p => p.2)

/-- Python `m[k] = v` on a string-keyed dict: overwrite in place or append. -/
def insertQ (m : QMap) (k : String) (v : ℚ) : QMap :=
  if m.any (fun p => p.1 == k) then
    m.map (fun p => if p.1 == k then (p.1, v) else p)
  else m ++ [(k, v)]

def lookupS (m : SMap) (k : String) : Option String :=
  (m.find? (fun p => p.1 == k)).map (fun p => p.2)

/-- Characters after the first colon of a string, when a colon occurs
(`s.split(":", 1)[1]`). -/
def afterColonChars : List Char → Option (List Char)
  | [] => none
  | c :: rest => if c == ':' then some rest else afterColonChars rest

/-- Python `":" in s`. -/
def containsColon (s : String) : Bool := (afterColonChars s.data).isSome

/-- Python `s.split(":", 1)[1]` (the legacy bare-suffix key). -/
def suffixAfterColon (s : String) : String :=
  String.mk ((afterColonChars s.data).getD [])

/-- Python `s.upper()` (the embedded device types are ASCII). -/
def pyUpper (s : String) : String := String.mk (s.data.map Char.toUpper)

/-! ### Constants

`const.py` is not under `src/`; the constants below are modelled from the
spec. The claims depend only on the identity of the mode tokens, not on
their spelling. -/

/-- Modelled from the spec: the OFF HVAC mode token from the missing
`const.py`. -/
def CONST_MODE_OFF : String := "OFF"

/-- Modelled from the spec: the smart-schedule HVAC mode token from the
missing `const.py`. -/
def CONST_MODE_SMART_SCHEDULE : String := "SMART_SCHEDULE"

/-- Modelled from the spec: the heat HVAC mode token from the missing
`const.py`. -/
def CONST_MODE_HEAT : String := "HEAT"

/-- Modelled from the spec: the cool HVAC mode token from the missing
`const.py`. -/
def CONST_MODE_COOL : String := "COOL"

/-- Modelled from the spec: the fan HVAC mode token from the missing
`const.py`. -/
def CONST_MODE_FAN : String := "FAN"

/-! ### Normalizer: device type and device key
(`TadoConnector._get_device_type`, `TadoConnector.get_device_key`) -/

/-- The `or`-chain of `_get_device_type`:
`type` or `deviceType` or `model` or `productType`. -/
def deviceTypeValue (d : Device) : Value :=
  pyOr (dictGet d "type")
    (pyOr (dictGet d "deviceType")
      (pyOr (dictGet d "model") (dictGet d "productType")))

/-- `TadoConnector._get_device_type`: None when the chain yields None, else
`str(x).upper()`. -/
def getDeviceType (d : Device) : Option String :=
  match deviceTypeValue d with
  | .vNone => none
  | v => some (pyUpper (pyStr v))

/-- `self._get_device_type(device_info) or "UNKNOWN"` in `get_device_key`. -/
def keyTypeOf (d : Device) : String :=
  match getDeviceType d with
  | some s => if s == "" then "UNKNOWN" else s
  | none => "UNKNOWN"

/-- `serialNumber or serialNo or shortSerialNo` in `get_device_key`. -/
def serialValue (d : Device) : Value :=
  pyOr (dictGet d "serialNumber")
    (pyOr (dictGet d "serialNo") (dictGet d "shortSerialNo"))

/-- `id or deviceId` in `get_device_key`. -/
def idValue (d : Device) : Value :=
  pyOr (dictGet d "id") (dictGet d "deviceId")

/-- `name or deviceName or roomName` in `get_device_key`. -/
def nameValue (d : Device) : Value :=
  pyOr (dictGet d "name") (pyOr (dictGet d "deviceName") (dictGet d "roomName"))

/-- The synthesis cascade of `get_device_key` after the existing-key check:
TYPE:serial, TYPE:id, TYPE:name, TYPE:#position, bare TYPE. -/
def getDeviceKeySynth (d : Device) (index : Option Int) : String :=
  let dt := keyTypeOf d
  if pyTruthy (serialValue d) then dt ++ ":" ++ pyStr (serialValue d)
  else if pyTruthy (idValue d) then dt ++ ":" ++ pyStr (idValue d)
  else if pyTruthy (nameValue d) then dt ++ ":" ++ pyStr (nameValue d)
  else
    match index with
    | some n => dt ++ ":#" ++ toString (n + 1)
    | none => dt

/-- `TadoConnector.get_device_key`: an existing non-empty string `device_key`
wins; otherwise the synthesis cascade. -/
def getDeviceKey (d : Device) (index : Option Int) : String :=
  match dictGet d "device_key" with
  | .vStr s => if s == "" then getDeviceKeySynth d index else s
  | _ => getDeviceKeySynth d index

/-- `device.get("device_key") or self.get_device_key(device, idx)` as used by
the connector's iteration loops (the stored `device_key` is always a string
produced by `get_device_key`, so `pyStr` is exact on reachable records). -/
def deviceKeyOf (d : Device) (idx : Nat) : String :=
  let v := dictGet d "device_key"
  if pyTruthy v then pyStr v else getDeviceKey d (some (idx : Int))

/-! ### API-call counter
(`_reset_api_call_counter_if_needed`, `_track_api_call`,
`get_api_call_count`, `get_api_call_date`) -/

/-- The `{date, count}` state behind `_api_call_date` / `_api_call_count`.
Dates are abstract day numbers. -/
structure ApiCounter where
  date : Int
  count : Nat
deriving DecidableEq

/-- An argument interpolated into an emitted log line. -/
inductive LogArg where
  | argDate (d : Int)
  | argCount (n : Nat)
deriving DecidableEq

/-- `TadoConnector._reset_api_call_counter_if_needed`: on a date change,
reset the count to 0, move the date forward, and log — the log line
interpolates only the new date. Returns (new state, reset?, log args). -/
def resetApiCallCounterIfNeeded (today : Int) (c : ApiCounter) :
    ApiCounter × Bool × List LogArg :=
  if today ≠ c.date then
    ({ date := today, count := 0 }, true, [LogArg.argDate today])
  else (c, false, [])

/-- `TadoConnector._track_api_call`: reset if needed, then add `n` (the
dispatcher notification carries no counter data and is omitted). -/
def trackApiCall (today : Int) (c : ApiCounter) (n : Nat) :
    ApiCounter × List LogArg :=
  let r := resetApiCallCounterIfNeeded today c
  ({ r.1 with count := r.1.count + n }, r.2.2)

/-- `TadoConnector.get_api_call_count`: reset if needed, then read. -/
def getApiCallCount (today : Int) (c : ApiCounter) : Nat × ApiCounter :=
  let r := resetApiCallCounterIfNeeded today c
  (r.1.count, r.1)

/-- `TadoConnector.get_api_call_date`: reset if needed, then read. -/
def getApiCallDate (today : Int) (c : ApiCounter) : Int × ApiCounter :=
  let r := resetApiCallCounterIfNeeded today c
  (r.1.date, r.1)

/-! ### Zone-state derivations
(`_get_nested`, `_get_setting`, `_derive_hvac_mode`, `_derive_hvac_action`) -/

/-- `TadoConnector._get_nested`: walk nested dicts, None on any miss or
non-dict. -/
def getNested (v : Value) : List String → Value
  | [] => v
  | k :: rest =>
    match v with
    | .vDict d => if hasKey d k then getNested (dictGet d k) rest else .vNone
    | _ => .vNone

/-- `TadoConnector._get_setting`: the `setting` sub-dict, `{}` when absent or
not a dict. -/
def getSetting (data : Device) : Device :=
  match dictGet data "setting" with
  | .vDict s => s
  | _ => []

/-- Python `isinstance(x, (int, float))` with the numeric value (bool is a
Python int). -/
def numericVal : Value → Option ℚ
  | .vInt n => some (n : ℚ)
  | .vRat q => some q
  | .vBool b => some (if b then 1 else 0)
  | _ => none

/-- `TadoConnector._derive_hvac_mode`. Power OFF wins, then no-overlay means
smart schedule, then an explicit mode, then the zone type decides. -/
def deriveHvacMode (data : Device) : Value :=
  let setting := getSetting data
  let power := dictGet setting "power"
  let mode := dictGet setting "mode"
  let zoneType := dictGet setting "type"
  let overlay := dictGet data "overlay"
  if scalarEq power (.vStr "OFF") then .vStr CONST_MODE_OFF
  else
    match overlay with
    | .vNone => .vStr CONST_MODE_SMART_SCHEDULE
    | _ =>
      if pyTruthy mode then mode
      else if scalarEq zoneType (.vStr "HEATING") || scalarEq zoneType (.vStr "HOT_WATER") then
        .vStr CONST_MODE_HEAT
      else if scalarEq zoneType (.vStr "AIR_CONDITIONING") then .vStr CONST_MODE_COOL
      else .vStr CONST_MODE_HEAT

/-- `TadoConnector._derive_hvac_action`. Power OFF wins, then a positive
heating power means HEATING, then the AC-power flag with the mode decides,
else IDLE. -/
def deriveHvacAction (data : Device) : Value :=
  let setting := getSetting data
  let power := dictGet setting "power"
  let mode := dictGet setting "mode"
  if scalarEq power (.vStr "OFF") then .vStr "OFF"
  else
    let activity := dictGetD data "activityDataPoints" (.vDict [])
    let heatingPower := getNested activity ["heatingPower", "percentage"]
    let hpPositive : Bool :=
      match numericVal heatingPower with
      | some q => decide (q > 0)
      | none => false
    if hpPositive then .vStr "HEATING"
    else
      let acPower := getNested activity ["acPower", "value"]
      if scalarEq acPower (.vStr "ON") then
        if scalarEq mode (.vStr CONST_MODE_COOL) then .vStr "COOLING"
        else if scalarEq mode (.vStr "DRY") then .vStr "DRYING"
        else if scalarEq mode (.vStr CONST_MODE_FAN) then .vStr "FAN"
        else .vStr "COOLING"
      else .vStr "IDLE"

/-! ### Offset engine
(`get_device_id_override`, `get_device_offset`, `_set_current_offset`,
`_lookup_device_key_for_id`, `set_temperature_offset`,
`_apply_device_offsets`) -/

/-- The static override configuration (`_device_id_overrides`,
`_device_type_id_overrides`; values already normalized to strings by
`__init__`). -/
structure Overrides where
  deviceIdOverrides : SMap
  deviceTypeIdOverrides : SMap

/-- `serialNumber or serialNo or shortSerialNo or id`, the raw-identifier
chain shared by `get_device_offset`, `_lookup_device_key_for_id`,
`_apply_device_offsets` and `_auto_adjust_offsets`. -/
def rawIdValue (d : Device) : Value :=
  pyOr (dictGet d "serialNumber")
    (pyOr (dictGet d "serialNo")
      (pyOr (dictGet d "shortSerialNo") (dictGet d "id")))

/-- `TadoConnector.get_device_id_override`: device-key exact match, then
legacy bare-suffix match, then exact-type override, then the wildcard. -/
def getDeviceIdOverride (ov : Overrides) (d : Device) (deviceKey : Option String) :
    Option String :=
  let key := match deviceKey with
    | some k => k
    | none => getDeviceKey d none
  match lookupS ov.deviceIdOverrides key with
  | some v => some v
  | none =>
    let legacyHit : Option String :=
      if containsColon key then
        let lk := suffixAfterColon key
        if lk != "" then lookupS ov.deviceIdOverrides lk else none
      else none
    match legacyHit with
    | some v => some v
    | none =>
      match getDeviceType d with
      | some dt =>
        if dt != "" ∧ (lookupS ov.deviceTypeIdOverrides dt).isSome then
          lookupS ov.deviceTypeIdOverrides dt
        else lookupS ov.deviceTypeIdOverrides "*"
      | none => lookupS ov.deviceTypeIdOverrides "*"

/-- `TadoConnector.__init__`, line `self._device_offsets_current =
dict(self._device_offsets)`: the runtime-current offset map starts as a copy
of the static per-device offsets. -/
def initCurrentOffsets (deviceOffsets : QMap) : QMap := deviceOffsets

/-- `TadoConnector.get_device_offset`: the runtime-current map is consulted
under the full key, then (when the key has a colon) the legacy bare suffix,
then any raw identifier match; no other map is consulted. -/
def getDeviceOffset (current : QMap) (d : Device) (deviceKey : Option String) :
    Option ℚ :=
  let key := match deviceKey with
    | some k => k
    | none => getDeviceKey d none
  let off1 := lookupQ current key
  let off2 := match off1 with
    | some v => some v
    | none => if containsColon key then lookupQ current (suffixAfterColon key) else none
  match off2 with
  | some v => some v
  | none =>
    let deviceId := rawIdValue d
    if pyTruthy deviceId then
      match deviceId with
      | .vStr s => lookupQ current s
      | _ => none
    else none

/-- `TadoConnector._set_current_offset`: record under the full key and, when
the key has a colon, under its bare legacy suffix as well. -/
def setCurrentOffset (current : QMap) (key : String) (offset : ℚ) : QMap :=
  let m := insertQ current key offset
  if containsColon key then insertQ m (suffixAfterColon key) offset else m

/-- `TadoConnector._lookup_device_key_for_id`: scan `self.devices` for the
record whose raw identifier stringifies to the given id, returning its
`device_key` (or synthesizing one). -/
def lookupDeviceKeyForId (devices : List Device) (deviceId : Value) : Option String :=
  (devices.enum.find? (fun p =>
      let candidate := rawIdValue p.2
      pyTruthy candidate && (pyStr candidate == pyStr deviceId))).map
    (fun p => deviceKeyOf p.2 p.1)

/-- Result of one `set_temperature_offset` call: the updated runtime-current
map, whether the remote write was attempted and succeeded, whether the
per-device change notification was dispatched, and whether a full device
refresh (`update_devices`) was triggered. -/
structure SetOffsetResult where
  current : QMap
  remoteAttempted : Bool
  remoteOk : Bool
  signalSent : Bool
  refreshed : Bool
deriving DecidableEq

/-- `TadoConnector.set_temperature_offset`. `remote` is the
`tado.set_temp_offset` oracle (`false` = raises RequestException, which the
method logs and absorbs). On success the offset is recorded (under the
device key and its legacy alias when one resolves, else under
`str(device_id)`), a change notification is dispatched, and a device
refresh runs unless `update_devices=False`. -/
def setTemperatureOffset (remote : Value → ℚ → Bool) (devices : List Device)
    (current : QMap) (deviceId : Value) (offset : ℚ)
    (deviceKey : Option String) (updateDevices : Bool) : SetOffsetResult :=
  if ¬ pyTruthy deviceId then
    { current := current, remoteAttempted := false, remoteOk := false
      signalSent := false, refreshed := false }
  else if ¬ remote deviceId offset then
    { current := current, remoteAttempted := true, remoteOk := false
      signalSent := false, refreshed := false }
  else
    let key := match deviceKey with
      | some k => some k
      | none => lookupDeviceKeyForId devices deviceId
    let current2 := match key with
      | some k => if k != "" then setCurrentOffset current k offset
                  else insertQ current (pyStr deviceId) offset
      | none => insertQ current (pyStr deviceId) offset
    { current := current2, remoteAttempted := true, remoteOk := true
      signalSent := true, refreshed := updateDevices }

/-- The static-offset selection inside `_apply_device_offsets` (per-device
full key, then legacy suffix, then exact-type, then wildcard). -/
def staticOffsetFor (deviceOffsets typeOffsets : QMap) (deviceKey : String)
    (deviceType : Option String) : Option ℚ :=
  let off1 := lookupQ deviceOffsets deviceKey
  let off2 := match off1 with
    | some v => some v
    | none =>
      if containsColon deviceKey then lookupQ deviceOffsets (suffixAfterColon deviceKey)
      else none
  match off2 with
  | some v => some v
  | none =>
    match deviceType with
    | some dt =>
      if dt != "" ∧ (lookupQ typeOffsets dt).isSome then lookupQ typeOffsets dt
      else lookupQ typeOffsets "*"
    | none => lookupQ typeOffsets "*"

/-- Result of `_apply_device_offsets`: the runtime-current map, the one-shot
flag, and the remote `set_temp_offset` writes attempted (device id, offset). -/
structure ApplyOffsetsResult where
  current : QMap
  offsetsApplied : Bool
  writes : List (Value × ℚ)

/-- `TadoConnector._apply_device_offsets`: one-shot static-offset
application over all known devices. A device with no static offset from any
layer, or no raw identifier, is skipped; a successful remote write records
the current layer; a failed write (RequestException) is only logged. -/
def applyDeviceOffsets (remote : Value → ℚ → Bool) (deviceOffsets typeOffsets : QMap)
    (offsetsApplied : Bool) (devices : List Device) (current : QMap) :
    ApplyOffsetsResult :=
  if offsetsApplied ∨ (deviceOffsets = [] ∧ typeOffsets = []) then
    { current := current, offsetsApplied := offsetsApplied, writes := [] }
  else
    let step := fun (acc : QMap × List (Value × ℚ)) (p : Nat × Device) =>
      let dt := getDeviceType p.2
      let key := deviceKeyOf p.2 p.1
      match staticOffsetFor deviceOffsets typeOffsets key dt with
      | none => acc
      | some off =>
        let did := rawIdValue p.2
        if ¬ pyTruthy did then acc
        else if remote did off then
          (setCurrentOffset acc.1 key off, acc.2 ++ [(did, off)])
        else (acc.1, acc.2 ++ [(did, off)])
    let r := devices.enum.foldl step (current, [])
    { current := r.1, offsetsApplied := true, writes := r.2 }

/-- Follows the words of claim C1, not the source: a resolver that, after
the runtime-current layers, would fall back to the static per-device offset,
then the exact-type offset, then the wildcard type offset. For comparison
with `getDeviceOffset`. -/
def claimResolveOffset (current deviceOffsets typeOffsets : QMap) (d : Device)
    (key : String) : Option ℚ :=
  match lookupQ current key with
  | some v => some v
  | none =>
    match (if containsColon key then lookupQ current (suffixAfterColon key) else none) with
    | some v => some v
    | none =>
      match (match rawIdValue d with
             | .vStr s => lookupQ current s
             | _ => none) with
      | some v => some v
      | none =>
        match lookupQ deviceOffsets key with
        | some v => some v
        | none =>
          match (match getDeviceType d with
                 | some dt => lookupQ typeOffsets dt
                 | none => none) with
          | some v => some v
          | none => lookupQ typeOffsets "*"

/-! ### Zone-sensor-map normalization
(`TadoConnector._normalize_zone_sensors` /
`TadoConnector._normalize_zone_sensor_map` in `tado_connector.py`, and the
module-level `_normalize_zone_sensors` / `_normalize_zone_sensor_map` in
`__init__.py`) -/

/-- A separator of the `re.split(r"[,\n;]+", value)` pattern. -/
def isSepChar (c : Char) : Bool := c == ',' || c == '\n' || c == ';'

/-- Split on every separator occurrence. The regex collapses separator runs,
but the resulting extra empty pieces are dropped by the `not item_str`
filter downstream, so the final token lists coincide. -/
def splitSeps (l : List Char) : List (List Char) :=
  l.foldr
    (fun c acc =>
      if isSepChar c then [] :: acc
      else
        match acc with
        | [] => [[c]]
        | h :: t => (c :: h) :: t)
    [[]]

/-- Python `s.strip()` (ASCII whitespace). -/
def pyStrip (s : String) : String :=
  String.mk (((s.data.dropWhile Char.isWhitespace).reverse.dropWhile Char.isWhitespace).reverse)

/-- One iteration of the accumulation loop shared by both
`_normalize_zone_sensors` versions: skip None, stringify and strip, drop
empties and duplicates (first occurrence wins). -/
def tokenStep (acc : List String) (item : Value) : List String :=
  match item with
  | .vNone => acc
  | v =>
    if pyStrip (pyStr v) == "" || acc.contains (pyStrip (pyStr v)) then acc
    else acc ++ [pyStrip (pyStr v)]

/-- The accumulation loop shared by both `_normalize_zone_sensors`
versions. -/
def normalizeTokensList (values : List Value) : List String :=
  values.foldl tokenStep []

/-- The `values` pre-processing of `_normalize_zone_sensors`: None means an
empty result, a list is taken as is, a non-empty string is split on
`[,\n;]+`, anything else is a one-element list. -/
def sensorValuesOf (value : Value) : Option (List Value) :=
  match value with
  | .vNone => none
  | .vList l => some l
  | .vStr s =>
    if s == "" then none
    else some ((splitSeps s.data).map (fun cs => Value.vStr (String.mk cs)))
  | v => some [v]

/-- `TadoConnector._normalize_zone_sensors` (tado_connector.py): dedup and
strip, no truncation. -/
def connectorNormalizeZoneSensors (value : Value) : List String :=
  match sensorValuesOf value with
  | none => []
  | some vs => normalizeTokensList vs

/-- Module-level `_normalize_zone_sensors` (`__init__.py`): same pipeline,
then keep only the most recently linked sensor. -/
def initNormalizeZoneSensors (value : Value) : List String :=
  let result := match sensorValuesOf value with
    | none => []
    | some vs => normalizeTokensList vs
  match result with
  | [] => []
  | h :: t => [(h :: t).getLastD ""]

/-- One iteration of `_normalize_zone_sensor_map` (both versions share the
shape, differing in the normalizer): skip falsy keys and zones whose
normalized sensor list is empty (keys modelled as the strings `str(key)`
produces). -/
def sensorMapStep (normalize : Value → List String)
    (acc : List (String × List String)) (kv : String × Value) :
    List (String × List String) :=
  if kv.1 == "" then acc
  else if (normalize kv.2).isEmpty then acc
  else acc ++ [(kv.1, normalize kv.2)]

/-- `TadoConnector._normalize_zone_sensor_map` (tado_connector.py). -/
def connectorNormalizeZoneSensorMap (m : List (String × Value)) :
    List (String × List String) :=
  m.foldl (sensorMapStep connectorNormalizeZoneSensors) []

/-- Module-level `_normalize_zone_sensor_map` (`__init__.py`). -/
def initNormalizeZoneSensorMap (m : List (String × Value)) :
    List (String × List String) :=
  m.foldl (sensorMapStep initNormalizeZoneSensors) []

/-! ### Auto-adjustment feedback loop (`_auto_adjust_offsets`) -/

/-- Classification of a host state-registry entry for one sensor entity, as
`_auto_adjust_offsets` consumes it: absent (`states.get` is None), the
literal `unknown`/`unavailable` states, a state string `float()` accepts
(idealized rational), or one it rejects with ValueError. -/
inductive SensorState where
  | missing
  | unknown
  | unavailable
  | numeric (q : ℚ)
  | invalid
deriving DecidableEq

/-- The host state registry (`self.hass.states`), restricted to the sensor
entities the loop reads. -/
abbrev Hass := List (String × SensorState)

def lookupSensor (hass : Hass) (sid : String) : SensorState :=
  match hass.find? (fun p => p.1 == sid) with
  | some p => p.2
  | none => SensorState.missing

/-- The sensor filter of `_auto_adjust_offsets` (lines 595-607): keep the
numeric reading of every mapped sensor whose state exists and is neither
`unknown` nor `unavailable` nor unparsable. -/
def survivingTemps (hass : Hass) (sensorIds : List String) : List ℚ :=
  sensorIds.filterMap (fun sid =>
    match lookupSensor hass sid with
    | SensorState.numeric q => some q
    | _ => none)

/-- Python `min` over a non-empty list, as `min(sensor_temps)`. -/
def minList (h : ℚ) (t : List ℚ) : ℚ := t.foldl min h

/-- Python `round(x, 1)`: round to one decimal, ties to even (the model is
exact rational arithmetic). -/
def roundHalfEvenZ (q : ℚ) : ℤ :=
  let f := ⌊q⌋
  let frac := q - f
  if frac < 1/2 then f
  else if frac > 1/2 then f + 1
  else if f % 2 = 0 then f else f + 1

def pyRound1 (q : ℚ) : ℚ := (roundHalfEvenZ (q * 10) : ℚ) / 10

/-- The configuration the auto-adjust loop reads: the linkable type-prefix
allowlist (`LINKABLE_DEVICE_PREFIXES` lives in the missing `const.py`, so it
stays a parameter), the id overrides, and the device-to-zone map. -/
structure AutoCfg where
  linkablePrefixes : List String
  overrides : Overrides
  deviceZoneMap : SMap

/-- The linkability gate: `device_type.startswith(LINKABLE_DEVICE_PREFIXES)`
after the `not device_type` check (an empty prefix tuple matches nothing,
as in Python). -/
def isLinkable (cfg : AutoCfg) (dt : Option String) : Bool :=
  match dt with
  | none => false
  | some s => s != "" && cfg.linkablePrefixes.any (fun p => List.isPrefixOf p.data s.data)

/-- The mapped-zone test of both loops: `device_zone_map` under the full
key, else under the legacy suffix, and the result must equal the zone key. -/
def mappedZoneMatches (deviceZoneMap : SMap) (key zoneKey : String) : Bool :=
  let mz := match lookupS deviceZoneMap key with
    | some z => some z
    | none =>
      if containsColon key then lookupS deviceZoneMap (suffixAfterColon key) else none
  match mz with
  | some z => z == zoneKey
  | none => false

/-- The first loop of `_auto_adjust_offsets` (lines 625-638): the resolved
current offsets of the zone's mapped linkable devices, in device order. -/
def zoneCurrentOffsets (cfg : AutoCfg) (current : QMap) (devices : List Device)
    (zoneKey : String) : List ℚ :=
  devices.enum.filterMap (fun p =>
    let key := deviceKeyOf p.2 p.1
    if ¬ isLinkable cfg (getDeviceType p.2) then none
    else if ¬ mappedZoneMatches cfg.deviceZoneMap key zoneKey then none
    else getDeviceOffset current p.2 (some key))

/-- One `set_offset` write issued by the auto-adjust loop: which device (by
its position in the device list), the id and key it was issued with, the
offset, and the `update_devices` flag it was passed. -/
structure AutoWrite where
  index : Nat
  deviceId : Value
  offset : ℚ
  deviceKey : String
  updateDevices : Bool

/-- The raw-id chain of the write loop:
`serialNumber or serialNo or shortSerialNo or id or get_device_id_override`. -/
def autoDeviceId (cfg : AutoCfg) (d : Device) (key : String) : Value :=
  pyOr (rawIdValue d)
    (match getDeviceIdOverride cfg.overrides d (some key) with
     | some s => .vStr s
     | none => .vNone)

/-- One iteration of the write loop of `_auto_adjust_offsets`
(lines 647-679): skip non-linkable or unmapped devices, skip devices
without a resolvable id (warning), skip when the existing offset is within
0.1 of the target (hysteresis), else issue a non-propagating
`set_temperature_offset` write. -/
def autoWriteStep (cfg : AutoCfg) (remote : Value → ℚ → Bool) (devices : List Device)
    (zoneKey : String) (target : ℚ) (acc : QMap × List AutoWrite × Bool)
    (p : Nat × Device) : QMap × List AutoWrite × Bool :=
  let key := deviceKeyOf p.2 p.1
  if ¬ isLinkable cfg (getDeviceType p.2) then acc
  else if ¬ mappedZoneMatches cfg.deviceZoneMap key zoneKey then acc
  else
    let did := autoDeviceId cfg p.2 key
    if ¬ pyTruthy did then acc
    else
      let lastOffset := getDeviceOffset acc.1 p.2 (some key)
      let skip : Bool := match lastOffset with
        | some o => decide (|o - target| < 1/10)
        | none => false
      if skip then acc
      else
        let r := setTemperatureOffset remote devices acc.1 did target (some key) false
        (r.current, acc.2.1 ++ [⟨p.1, did, target, key, false⟩], true)

/-- The connector state `_auto_adjust_offsets` reads and writes: the
runtime-current offsets, the stored zone-sensor map, the device list, and
`data["zone"]` projected to the adapters' `current_temp` field (the only
zone-data field the method touches; an absent entry is an absent zone,
`some none` a zone without a temperature reading). -/
structure AutoState where
  current : QMap
  zoneSensorMap : List (String × Value)
  devices : List Device
  zoneData : List (Int × Option ℚ)

def lookupZoneData (zd : List (Int × Option ℚ)) (zoneId : Int) : Option (Option ℚ) :=
  (zd.find? (fun p => p.1 == zoneId)).map (fun p => p.2)

def lookupSensorMapValue (m : List (String × Value)) (k : String) : Value :=
  match m.find? (fun p => p.1 == k) with
  | some p => p.2
  | none => .vNone

/-- Outcome of `TadoConnector._auto_adjust_offsets` for one zone: one of the
early-return branches, or a completed pass with the reference temperature,
average applied offset, clamped-and-rounded target, the resulting
runtime-current map, and the writes issued. -/
inductive AutoOutcome where
  | skippedNoMaps
  | skippedNoSensors
  | skippedNoValidTemps
  | skippedNoZoneData
  | skippedNoCurrentTemp
  | ran (sensorTemp avgOffset targetOffset : ℚ) (final : QMap) (writes : List AutoWrite)

/-- Lines 625-679 of `_auto_adjust_offsets`, once a reference temperature
and a zone temperature exist: average the resolved offsets of the zone's
mapped linkable devices, back out the raw temperature, clamp and round the
target, and run the write loop. -/
def autoAdjustRun (cfg : AutoCfg) (remote : Value → ℚ → Bool) (st : AutoState)
    (zoneId : Int) (sensorTemp currentTemp : ℚ) : AutoOutcome :=
  let zoneKey := toString zoneId
  let offs := zoneCurrentOffsets cfg st.current st.devices zoneKey
  let avgOffset : ℚ := if offs.isEmpty then 0 else offs.sum / offs.length
  let rawTemp := currentTemp - avgOffset
  let target0 := sensorTemp - rawTemp
  let target1 := max (-10 : ℚ) (min 10 target0)
  let target := pyRound1 target1
  let r := st.devices.enum.foldl
    (autoWriteStep cfg remote st.devices zoneKey target) (st.current, [], false)
  .ran sensorTemp avgOffset target r.1 r.2.1

/-- The zone-data guard of `_auto_adjust_offsets` (lines 617-623): no
stored zone data or no current temperature aborts the pass. -/
def autoAdjustWithTemps (cfg : AutoCfg) (remote : Value → ℚ → Bool) (st : AutoState)
    (zoneId : Int) (sensorTemp : ℚ) : AutoOutcome :=
  match lookupZoneData st.zoneData zoneId with
  | none => .skippedNoZoneData
  | some none => .skippedNoCurrentTemp
  | some (some currentTemp) => autoAdjustRun cfg remote st zoneId sensorTemp currentTemp

/-- The sensor-reading guard of `_auto_adjust_offsets` (lines 595-615): no
surviving reading aborts the pass, else the reference is their minimum. -/
def autoAdjustWithSensors (cfg : AutoCfg) (hass : Hass) (remote : Value → ℚ → Bool)
    (st : AutoState) (zoneId : Int) (sensorIds : List String) : AutoOutcome :=
  if sensorIds.isEmpty then .skippedNoSensors
  else
    match survivingTemps hass sensorIds with
    | [] => .skippedNoValidTemps
    | t :: ts => autoAdjustWithTemps cfg remote st zoneId (minList t ts)

/-- `TadoConnector._auto_adjust_offsets` (the `force` flag is unused by the
method body). -/
def autoAdjustOffsets (cfg : AutoCfg) (hass : Hass) (remote : Value → ℚ → Bool)
    (st : AutoState) (zoneId : Int) : AutoOutcome :=
  if cfg.deviceZoneMap.isEmpty || st.zoneSensorMap.isEmpty then .skippedNoMaps
  else
    autoAdjustWithSensors cfg hass remote st zoneId
      (connectorNormalizeZoneSensors
        (lookupSensorMapValue st.zoneSensorMap (toString zoneId)))

/-! ### Poll cycle and setup
(`update`, `update_devices`, `update_mobile_devices`, `update_zones`,
`update_zone`, `update_home`, `setup`, `_extract_home_info`,
`_normalize_device`, `_to_dict`) -/

/-- Python exceptions relevant to the embedded paths. `PyTado` surfaces its
errors as `TadoException`; `requests` write failures as
`requestException`. -/
inductive Exc where
  | runtimeError
  | tadoException
  | requestException
  | keyError
  | typeError
  | valueError
  | attributeError
deriving DecidableEq

/-- The `except (RuntimeError, TadoException)` filter used by every poll
step. -/
def isCaughtUpdate (e : Exc) : Bool := e == .runtimeError || e == .tadoException

/-- One recorded outbound remote call (for claims about which calls a code
path performs). -/
inductive CallTag where
  | getMe
  | getZones
  | getDevices
  | getMobileDevices
  | getTempOffset (id : String)
  | getZone (zoneId : Int)
  | getZoneState (zoneId : Int)
  | getWeather
  | getHomeState
  | setTempOffset (id : String)
deriving DecidableEq

/-- The remote client (`self.tado`) as response oracles, one per method the
poll cycle calls. -/
structure Client where
  getDevices : Except Exc Value
  getTempOffset : String → Except Exc Value
  getMobileDevices : Except Exc Value
  getZone : Int → Except Exc Value
  getZoneState : Int → Except Exc Value
  getWeather : Except Exc Value
  getHomeState : Except Exc Value

/-- `self.data` and `self._zones_by_id`: the per-category stores the poll
cycle mutates. `device`/`mobile_device` are keyed by the raw (hashable,
scalar) ids the code indexes with; `zone` stores, per zone id, the raw
zone-state value the `ZoneStateAdapter` wraps (or the non-dict state stored
as is). -/
structure ConnData where
  device : List (Value × Device)
  mobileDevice : List (Value × Device)
  weather : Device
  geofence : Device
  zone : List (Int × Value)
  zonesById : List (Int × Value)

/-- Dict assignment with a scalar Python key. -/
def insertScalar (m : List (Value × Device)) (k : Value) (v : Device) :
    List (Value × Device) :=
  if m.any (fun p => scalarEq p.1 k) then
    m.map (fun p => if scalarEq p.1 k then (p.1, v) else p)
  else m ++ [(k, v)]

/-- Dict assignment with an int key (`data["zone"][zone_id] = ...`). -/
def insertZ (m : List (Int × Value)) (k : Int) (v : Value) : List (Int × Value) :=
  if m.any (fun p => p.1 == k) then
    m.map (fun p => if p.1 == k then (p.1, v) else p)
  else m ++ [(k, v)]

/-- `TadoConnector._to_dict`: a dict passes through; anything else (the
object branches are out of the value model) becomes `{}`. -/
def toDictV (v : Value) : Device :=
  match v with
  | .vDict d => d
  | _ => []

/-- Dict assignment `d[k] = v` on a record. -/
def insertV (d : Device) (k : String) (v : Value) : Device :=
  if d.any (fun p => p.1 == k) then
    d.map (fun p => if p.1 == k then (p.1, v) else p)
  else d ++ [(k, v)]

/-- Python `d.setdefault(k, v)`. -/
def setdefaultV (d : Device) (k : String) (v : Value) : Device :=
  if hasKey d k then d else d ++ [(k, v)]

/-- Python `d[k]` (KeyError when absent). -/
def pyDictIndex (d : Device) (k : String) : Except Exc Value :=
  if hasKey d k then .ok (dictGet d k) else .error .keyError

/-- Python iteration (`for x in v` / list comprehension): lists iterate
elements, strings iterate one-character strings, dicts iterate keys;
anything else raises TypeError. -/
def pyIterate (v : Value) : Except Exc (List Value) :=
  match v with
  | .vList l => .ok l
  | .vStr s => .ok (s.data.map (fun ch => Value.vStr (String.mk [ch])))
  | .vDict d => .ok (d.map (fun p => Value.vStr p.1))
  | _ => .error .typeError

/-- `TadoConnector._normalize_device`: convert to a dict, stamp `is_x`,
derive and store `device_key`, and when no serial-like field is truthy,
synthesize the identifier fields from the override table. -/
def normalizeDevice (isX : Bool) (ov : Overrides) (v : Value) (index : Option Int) :
    Device :=
  let d0 := toDictV v
  let d1 := insertV d0 "is_x" (.vBool isX)
  let key := getDeviceKey d1 index
  let d2 := insertV d1 "device_key" (.vStr key)
  let hasSerial := ["serialNumber", "serialNo", "shortSerialNo"].any
    (fun k => pyTruthy (dictGet d2 k))
  if hasSerial then d2
  else
    match getDeviceIdOverride ov d2 (some key) with
    | some o =>
      if o != "" then
        let d3 := insertV d2 "serialNumber" (.vStr o)
        let d4 := setdefaultV d3 "serialNo" (.vStr o)
        let d5 := setdefaultV d4 "shortSerialNo" (.vStr o)
        setdefaultV d5 "id" (.vStr o)
      else d2
    | none => d2

/-- `isinstance(devices, dict) and devices.get("errors")` — the
error-payload check of the poll steps. -/
def isDictWithErrors (v : Value) : Bool :=
  match v with
  | .vDict d => pyTruthy (dictGet d "errors")
  | _ => false

/-- Modelled from the spec: the inside-temperature-measurement capability
token from the missing `const.py`. -/
def INSIDE_TEMPERATURE_MEASUREMENT : String := "INSIDE_TEMPERATURE_MEASUREMENT"

/-- Modelled from the spec: the key under which the fetched temperature
offset sub-record is stored (`TEMP_OFFSET` in the missing `const.py`). -/
def TEMP_OFFSET : String := "temp_offset"

/-- Python `item in caps` as used for the capability test: list membership,
substring test on a string, key membership on a dict, TypeError otherwise. -/
def capabilityMembership (caps : Value) (item : String) : Except Exc Bool :=
  match caps with
  | .vList l => .ok (l.any (fun c => scalarEq c (.vStr item)))
  | .vStr s => .ok (decide (List.IsInfix item.data s.data))
  | .vDict dd => .ok (hasKey dd item)
  | _ => .error .typeError

/-- The per-device loop of `update_devices` (lines 927-961): skip devices
without an id; on the legacy generation, fetch the temperature-offset
record for inside-temperature-capable devices, where a transient error
aborts the whole remaining loop (`return offset_calls`); store each device
and count the offset calls. -/
def updateDevicesLoop (client : Client) (isX : Bool) (ov : Overrides) :
    List (Nat × Value) → List (Value × Device) → Nat → List CallTag →
    Except Exc (List (Value × Device) × Nat × List CallTag)
  | [], dev, offsetCalls, trace => .ok (dev, offsetCalls, trace)
  | (idx, item) :: rest, dev, offsetCalls, trace =>
    let dinfo := normalizeDevice isX ov item (some (idx : Int))
    let deviceId := if isX then dictGet dinfo "serialNumber" else dictGet dinfo "shortSerialNo"
    if ¬ pyTruthy deviceId then updateDevicesLoop client isX ov rest dev offsetCalls trace
    else if isX then
      updateDevicesLoop client isX ov rest (insertScalar dev deviceId dinfo) offsetCalls trace
    else
      match dictGetD dinfo "characteristics" (.vDict []) with
      | .vDict chd =>
        let caps := dictGetD chd "capabilities" (.vList [])
        match capabilityMembership caps INSIDE_TEMPERATURE_MEASUREMENT with
        | .error e => .error e
        | .ok false =>
          updateDevicesLoop client isX ov rest (insertScalar dev deviceId dinfo) offsetCalls trace
        | .ok true =>
          let trace2 := trace ++ [CallTag.getTempOffset (pyStr deviceId)]
          match client.getTempOffset (pyStr deviceId) with
          | .error e =>
            if isCaughtUpdate e then .ok (dev, offsetCalls, trace2) else .error e
          | .ok off =>
            let dinfo2 := insertV dinfo TEMP_OFFSET (.vDict (toDictV off))
            updateDevicesLoop client isX ov rest (insertScalar dev deviceId dinfo2)
              (offsetCalls + 1) trace2
      | _ => .error .attributeError

/-- `TadoConnector.update_devices`: a transient fetch failure, an empty
result or an error payload each abort this step alone, leaving
`data["device"]` intact; otherwise the device loop runs. Returns the data,
the offset-call count, and the remote calls made. -/
def updateDevices (client : Client) (isX : Bool) (ov : Overrides) (data : ConnData) :
    Except Exc (ConnData × Nat × List CallTag) :=
  match client.getDevices with
  | .error e =>
    if isCaughtUpdate e then .ok (data, 0, [CallTag.getDevices]) else .error e
  | .ok raw =>
    if ¬ pyTruthy raw then .ok (data, 0, [CallTag.getDevices])
    else if isDictWithErrors raw then .ok (data, 0, [CallTag.getDevices])
    else
      match pyIterate raw with
      | .error e => .error e
      | .ok items =>
        match updateDevicesLoop client isX ov items.enum data.device 0 [CallTag.getDevices] with
        | .error e => .error e
        | .ok (dev, oc, tr) => .ok ({ data with device := dev }, oc, tr)

/-- The storage loop of `update_mobile_devices`: each record is indexed by
its `id`, which must be present (KeyError) and hashable (TypeError). -/
def storeMobiles (m : List (Value × Device)) :
    List Device → Except Exc (List (Value × Device))
  | [] => .ok m
  | d :: rest =>
    match pyDictIndex d "id" with
    | .error e => .error e
    | .ok idv =>
      match idv with
      | .vList _ => .error .typeError
      | .vDict _ => .error .typeError
      | _ => storeMobiles (insertScalar m idv d) rest

/-- `TadoConnector.update_mobile_devices`: transient fetch failure, empty
result or error payload abort this step alone; otherwise every record is
stored by id (one batch notification is then dispatched). -/
def updateMobileDevices (client : Client) (data : ConnData) :
    Except Exc (ConnData × List CallTag) :=
  match client.getMobileDevices with
  | .error e =>
    if isCaughtUpdate e then .ok (data, [CallTag.getMobileDevices]) else .error e
  | .ok raw =>
    if ¬ pyTruthy raw then .ok (data, [CallTag.getMobileDevices])
    else if isDictWithErrors raw then .ok (data, [CallTag.getMobileDevices])
    else
      match pyIterate raw with
      | .error e => .error e
      | .ok items =>
        match storeMobiles data.mobileDevice (items.map toDictV) with
        | .error e => .error e
        | .ok m => .ok ({ data with mobileDevice := m }, [CallTag.getMobileDevices])

/-- The zone-state part of `update_zone`: a dict zone fetches the zone
state (a transient failure aborts this zone alone); the state (wrapped by
the adapter when a dict) is stored under the zone id. A non-dict zone is
stored as is (the `hasattr(zone, "update")` branch concerns PyTado objects,
which are outside the value model; dict/list/str values have no such
attribute... dicts are already handled by the first branch). -/
def updateZoneState (client : Client) (data : ConnData) (zoneId : Int) (z : Value)
    (infoCalls : Nat) (trace : List CallTag) :
    Except Exc (ConnData × Nat × Nat × List CallTag) :=
  match z with
  | .vDict _ =>
    match client.getZoneState zoneId with
    | .error e =>
      if isCaughtUpdate e then .ok (data, infoCalls, 0, trace ++ [CallTag.getZoneState zoneId])
      else .error e
    | .ok zstate =>
      .ok ({ data with zone := insertZ data.zone zoneId zstate }, infoCalls, 1,
        trace ++ [CallTag.getZoneState zoneId])
  | _ => .ok ({ data with zone := insertZ data.zone zoneId z }, infoCalls, 0, trace)

/-- `TadoConnector.update_zone`: fetch the zone info when not cached (a
transient failure aborts this zone alone), then the zone state.
`_log_zone_change` only logs; the per-zone notification is dispatched after
storing. -/
def updateZone (client : Client) (data : ConnData) (zoneId : Int) :
    Except Exc (ConnData × Nat × Nat × List CallTag) :=
  match (data.zonesById.find? (fun p => p.1 == zoneId)).map (fun p => p.2) with
  | some z => updateZoneState client data zoneId z 0 []
  | none =>
    match client.getZone zoneId with
    | .error e =>
      if isCaughtUpdate e then .ok (data, 0, 0, [CallTag.getZone zoneId]) else .error e
    | .ok z =>
      let data2 := { data with zonesById := insertZ data.zonesById zoneId z }
      updateZoneState client data2 zoneId z 1 [CallTag.getZone zoneId]

/-- The iteration of `update_zones` over `list(self._zones_by_id)`. -/
def updateZonesLoop (client : Client) :
    List Int → ConnData → Nat → Nat → List CallTag →
    Except Exc (ConnData × Nat × Nat × List CallTag)
  | [], data, zic, zsc, trace => .ok (data, zic, zsc, trace)
  | zid :: rest, data, zic, zsc, trace =>
    match updateZone client data zid with
    | .error e => .error e
    | .ok (data2, i, s, tr) => updateZonesLoop client rest data2 (zic + i) (zsc + s) (trace ++ tr)

/-- `TadoConnector.update_zones`. -/
def updateZones (client : Client) (data : ConnData) :
    Except Exc (ConnData × Nat × Nat × List CallTag) :=
  updateZonesLoop client (data.zonesById.map (fun p => p.1)) data 0 0 []

/-- `TadoConnector.update_home`: weather then geofence; a transient failure
anywhere in the step aborts it alone, keeping whatever was stored before
the failure. -/
def updateHome (client : Client) (data : ConnData) :
    Except Exc (ConnData × List CallTag) :=
  match client.getWeather with
  | .error e => if isCaughtUpdate e then .ok (data, [CallTag.getWeather]) else .error e
  | .ok w =>
    let data2 := { data with weather := toDictV w }
    match client.getHomeState with
    | .error e =>
      if isCaughtUpdate e then .ok (data2, [CallTag.getWeather, CallTag.getHomeState])
      else .error e
    | .ok hs =>
      .ok ({ data2 with geofence := toDictV hs }, [CallTag.getWeather, CallTag.getHomeState])

/-- `TadoConnector.update`: one full poll cycle — devices, mobile devices,
zones, home, in that order. `_log_poll_summary` only logs (it mutates the
de-duplication string `_last_poll_summary` and reads the call counter) and
performs no remote call, so it is not modelled. -/
def update (client : Client) (isX : Bool) (ov : Overrides) (data : ConnData) :
    Except Exc (ConnData × List CallTag) :=
  match updateDevices client isX ov data with
  | .error e => .error e
  | .ok (d1, _oc, t1) =>
    match updateMobileDevices client d1 with
    | .error e => .error e
    | .ok (d2, t2) =>
      match updateZones client d2 with
      | .error e => .error e
      | .ok (d3, _zic, _zsc, t3) =>
        match updateHome client d3 with
        | .error e => .error e
        | .ok (d4, t4) => .ok (d4, t1 ++ t2 ++ t3 ++ t4)

/-! #### Setup (`setup`, `_extract_home_info`) -/

/-- Python `int(x)` truncation toward zero for a float. -/
def pyIntTrunc (q : ℚ) : ℤ := if q < 0 then -(⌊-q⌋) else ⌊q⌋

/-- Python `int(s)` on a string: optional sign and decimal digits after
stripping whitespace. -/
def pyParseIntDigits : List Char → Option Nat
  | [] => none
  | l =>
    l.foldl
      (fun acc c =>
        match acc with
        | none => none
        | some n => if c.isDigit then some (n * 10 + (c.toNat - 48)) else none)
      (some 0)

def pyParseInt (s : String) : Option Int :=
  match (pyStrip s).data with
  | '-' :: rest => (pyParseIntDigits rest).map (fun n => -(n : Int))
  | '+' :: rest => (pyParseIntDigits rest).map (fun n => (n : Int))
  | l => (pyParseIntDigits l).map (fun n => (n : Int))

/-- Python `int(x)`: ints and bools pass, floats truncate, numeric strings
parse (ValueError otherwise), anything else raises TypeError. -/
def toPyInt : Value → Except Exc Int
  | .vInt n => .ok n
  | .vBool b => .ok (if b then 1 else 0)
  | .vRat q => .ok (pyIntTrunc q)
  | .vStr s =>
    match pyParseInt s with
    | some n => .ok n
    | none => .error .valueError
  | _ => .error .typeError

/-- The `homes` extraction of `_extract_home_info` before the dict wrap: a
list passes through; on a dict, `homes` or `home` or `[]`; scalars have no
`homes` attribute, leaving None. -/
def extractHomesValue (me : Value) : Value :=
  match me with
  | .vList l => .vList l
  | .vDict d => pyOr (dictGet d "homes") (pyOr (dictGet d "home") (.vList []))
  | _ => .vNone

/-- The homes collection after the `isinstance(homes, dict)` wrap. -/
def setupHomesOf (me : Value) : Value :=
  match extractHomesValue me with
  | .vDict d => .vList [.vDict d]
  | h => h

/-- `TadoConnector._extract_home_info`: an empty/missing homes collection
raises RuntimeError before anything else is fetched; the first home must
carry an id and a name. Returns (home id, home name, generation value). -/
def extractHomeInfo (me : Value) : Except Exc (Int × String × Value) :=
  let homes := setupHomesOf me
  if ¬ pyTruthy homes then .error .runtimeError
  else
    match homes with
    | .vList [] => .error .runtimeError
    | .vList (h :: _) =>
      let fields := match h with
        | .vDict hd => (dictGet hd "id", dictGet hd "name", dictGet hd "generation")
        | _ => (Value.vNone, Value.vNone, Value.vNone)
      match fields.1, fields.2.1 with
      | .vNone, _ => .error .runtimeError
      | _, .vNone => .error .runtimeError
      | _, _ =>
        match toPyInt fields.1 with
        | .error e => .error e
        | .ok n => .ok (n, pyStr fields.2.1, fields.2.2)
    | .vStr _ => .error .runtimeError
    | _ => .error .typeError

/-- Modelled from the spec: the default heating zone type (`TYPE_HEATING`
in the missing `const.py`; the spec says the zone type defaults to
heating). -/
def TYPE_HEATING : String := "HEATING"

/-- A normalized zone as `setup` appends it to `self.zones`. -/
structure ZoneRec where
  id : Int
  name : String
  ztype : String
  devices : List Device

/-- The per-zone processing of `setup` (lines 317-332): `_get_zone_id` (int
conversion may raise), `_get_zone_name` with the id as fallback,
`_get_zone_type` defaulting to heating, and normalization of the zone's
devices. Non-dict zone items have none of the probed attributes, so the id
conversion raises TypeError. -/
def processZones (isX : Bool) (ov : Overrides) :
    List Value → Except Exc (List ZoneRec × List (Int × Value))
  | [] => .ok ([], [])
  | z :: rest =>
    match z with
    | .vDict zd =>
      let idv := pyOr (dictGet zd "id") (pyOr (dictGet zd "roomId") (dictGet zd "room_id"))
      match toPyInt idv with
      | .error e => .error e
      | .ok zid =>
        let nameV := pyOr (dictGet zd "name") (pyOr (dictGet zd "roomName") (dictGet zd "room_name"))
        let zname := if pyTruthy nameV then pyStr nameV else toString zid
        let ztype := match dictGet zd "type" with
          | .vNone => TYPE_HEATING
          | v => pyStr v
        match pyIterate (dictGetD zd "devices" (.vList [])) with
        | .error e => .error e
        | .ok ds =>
          let zdevices := ds.enum.map (fun p => normalizeDevice isX ov p.2 (some (p.1 : Int)))
          match processZones isX ov rest with
          | .error e => .error e
          | .ok (zrecs, zbyid) =>
            .ok (⟨zid, zname, ztype, zdevices⟩ :: zrecs, (zid, z) :: zbyid)
    | _ => .error .typeError

/-- The client surface `setup` uses: construction of the authenticated
client (a KeyError there is re-raised as RuntimeError), the `me`, zone and
device listings, and the `set_temp_offset` oracle for the one-shot static
offsets. -/
structure SetupClient where
  initOk : Except Exc Unit
  me : Except Exc Value
  zones : Except Exc Value
  devices : Except Exc Value
  setTempOffset : Value → ℚ → Bool

/-- What `setup` establishes on success. -/
structure SetupResult where
  homeId : Int
  homeName : String
  generation : Value
  isX : Bool
  zones : List ZoneRec
  zonesById : List (Int × Value)
  devices : List Device
  current : QMap
  offsetsApplied : Bool
  offsetWrites : List (Value × ℚ)

/-- `TadoConnector.setup`: client construction, `get_me` +
`_extract_home_info`, the generation flag (the `http` attribute probes for
a missing generation are outside the model: the prior flag is kept), the
zone listing, the device listing, then the one-shot static offsets. The
second component is the trace of remote calls made, also on failure. -/
def setup (c : SetupClient) (ov : Overrides) (deviceOffsets typeOffsets : QMap)
    (isX0 : Bool) (current0 : QMap) (offsetsApplied0 : Bool) :
    Except Exc SetupResult × List CallTag :=
  match c.initOk with
  | .error .keyError => (.error .runtimeError, [])
  | .error e => (.error e, [])
  | .ok _ =>
    match c.me with
    | .error e => (.error e, [CallTag.getMe])
    | .ok meV =>
      match extractHomeInfo meV with
      | .error e => (.error e, [CallTag.getMe])
      | .ok (hid, hname, gen) =>
        let isX := match gen with
          | .vNone => isX0
          | g => scalarEq g (.vStr "LINE_X")
        match c.zones with
        | .error e => (.error e, [CallTag.getMe, CallTag.getZones])
        | .ok zsV =>
          match pyIterate zsV with
          | .error e => (.error e, [CallTag.getMe, CallTag.getZones])
          | .ok zs =>
            match processZones isX ov zs with
            | .error e => (.error e, [CallTag.getMe, CallTag.getZones])
            | .ok (zrecs, zbyid) =>
              match c.devices with
              | .error e => (.error e, [CallTag.getMe, CallTag.getZones, CallTag.getDevices])
              | .ok dvsV =>
                match pyIterate dvsV with
                | .error e =>
                  (.error e, [CallTag.getMe, CallTag.getZones, CallTag.getDevices])
                | .ok dvs =>
                  let devices := dvs.enum.map
                    (fun p => normalizeDevice isX ov p.2 (some (p.1 : Int)))
                  let ar := applyDeviceOffsets c.setTempOffset deviceOffsets typeOffsets
                    offsetsApplied0 devices current0
                  (.ok
                    { homeId := hid, homeName := hname, generation := gen, isX := isX
                      zones := zrecs, zonesById := zbyid, devices := devices
                      current := ar.current, offsetsApplied := ar.offsetsApplied
                      offsetWrites := ar.writes },
                   [CallTag.getMe, CallTag.getZones, CallTag.getDevices]
                     ++ ar.writes.map (fun w => CallTag.setTempOffset (pyStr w.1)))

/-! ### Helper lemmas -/

theorem afterColon_length : ∀ (l : List Char) (r : List Char),
    afterColonChars l = some r → r.length < l.length := by
  intro l
  induction l with
  | nil => intro r h; simp [afterColonChars] at h
  | cons c t ih =>
    intro r h
    simp only [afterColonChars] at h
    split at h
    · cases h; simp
    · exact Nat.lt_trans (ih r h) (by simp)

theorem suffixAfterColon_ne (s : String) (h : containsColon s = true) :
    suffixAfterColon s ≠ s := by
  intro he
  unfold containsColon at h
  cases hm : afterColonChars s.data with
  | none => rw [hm] at h; simp at h
  | some r =>
    have hlen := afterColon_length s.data r hm
    unfold suffixAfterColon at he
    rw [hm] at he
    have hr : r = s.data := congrArg String.data he
    rw [hr] at hlen
    exact lt_irrefl _ hlen

theorem lookupQ_cons (a : String × ℚ) (t : QMap) (k : String) :
    lookupQ (a :: t) k = if a.1 = k then some a.2 else lookupQ t k := by
  by_cases h : a.1 = k
  · rw [if_pos h]
    unfold lookupQ
    rw [List.find?_cons_of_pos _ (by simp [h])]
    rfl
  · rw [if_neg h]
    unfold lookupQ
    rw [List.find?_cons_of_neg _ (by simp [h])]

theorem lookupQ_map_replace_self (k : String) (v : ℚ) :
    ∀ m : QMap, m.any (fun p => p.1 == k) = true →
      lookupQ (m.map (fun p => if p.1 == k then (p.1, v) else p)) k = some v := by
  intro m
  induction m with
  | nil => intro h; simp at h
  | cons a t ih =>
    intro h
    by_cases ha : a.1 = k
    · rw [List.map_cons, if_pos (by simp [ha]), lookupQ_cons]
      simp [ha]
    · have ha2 : (a.1 == k) = false := by simp [ha]
      simp only [List.any_cons, ha2, Bool.false_or] at h
      rw [List.map_cons, ha2]
      simp only [Bool.false_eq_true, if_false]
      rw [lookupQ_cons, if_neg ha]
      exact ih h

theorem lookupQ_map_replace_ne (k : String) (v : ℚ) (k2 : String) (h : k2 ≠ k) :
    ∀ m : QMap,
      lookupQ (m.map (fun p => if p.1 == k then (p.1, v) else p)) k2 = lookupQ m k2 := by
  intro m
  induction m with
  | nil => simp [lookupQ]
  | cons a t ih =>
    by_cases ha : a.1 = k
    · have hne : ¬ a.1 = k2 := fun he => h (by rw [← he]; exact ha)
      rw [List.map_cons, if_pos (by simp [ha]), lookupQ_cons, lookupQ_cons,
        if_neg hne, if_neg hne]
      exact ih
    · have ha2 : (a.1 == k) = false := by simp [ha]
      rw [List.map_cons, ha2]
      simp only [Bool.false_eq_true, if_false]
      rw [lookupQ_cons, lookupQ_cons]
      by_cases hb : a.1 = k2
      · simp [hb]
      · rw [if_neg hb, if_neg hb]
        exact ih

theorem lookupQ_append_single_self (k : String) (v : ℚ) :
    ∀ m : QMap, m.any (fun p => p.1 == k) = false →
      lookupQ (m ++ [(k, v)]) k = some v := by
  intro m
  induction m with
  | nil => intro _; simp [lookupQ, List.find?]
  | cons a t ih =>
    intro h
    simp only [List.any_cons, Bool.or_eq_false_iff] at h
    rw [List.cons_append, lookupQ_cons, if_neg (by simpa using h.1)]
    exact ih h.2

theorem lookupQ_append_single_ne (k : String) (v : ℚ) (k2 : String) (h : k2 ≠ k) :
    ∀ m : QMap, lookupQ (m ++ [(k, v)]) k2 = lookupQ m k2 := by
  intro m
  induction m with
  | nil =>
    have hkk : (k == k2) = false := by
      simp only [beq_eq_false_iff_ne, ne_eq]
      exact fun he => h he.symm
    simp [lookupQ, List.find?, hkk]
  | cons a t ih =>
    rw [List.cons_append, lookupQ_cons, lookupQ_cons]
    by_cases hb : a.1 = k2
    · simp [hb]
    · rw [if_neg hb, if_neg hb]
      exact ih

theorem lookupQ_insertQ_self (m : QMap) (k : String) (v : ℚ) :
    lookupQ (insertQ m k v) k = some v := by
  unfold insertQ
  split
  · exact lookupQ_map_replace_self k v m (by assumption)
  · rename_i hany
    exact lookupQ_append_single_self k v m (Bool.eq_false_iff.mpr hany)

theorem lookupQ_insertQ_ne (m : QMap) (k : String) (v : ℚ) (k2 : String) (h : k2 ≠ k) :
    lookupQ (insertQ m k v) k2 = lookupQ m k2 := by
  unfold insertQ
  split
  · exact lookupQ_map_replace_ne k v k2 h m
  · exact lookupQ_append_single_ne k v k2 h m

theorem lookupQ_setCurrentOffset_self (m : QMap) (k : String) (v : ℚ) :
    lookupQ (setCurrentOffset m k v) k = some v := by
  unfold setCurrentOffset
  split
  · rename_i hc
    have hne : k ≠ suffixAfterColon k := fun he => suffixAfterColon_ne k hc he.symm
    rw [lookupQ_insertQ_ne _ _ _ _ hne, lookupQ_insertQ_self]
  · exact lookupQ_insertQ_self m k v

theorem tokenStep_nodup (acc : List String) (item : Value) (h : acc.Nodup) :
    (tokenStep acc item).Nodup := by
  unfold tokenStep
  split
  · exact h
  · split
    · exact h
    · rename_i hcond
      simp only [Bool.or_eq_true, not_or, Bool.not_eq_true] at hcond
      have hmem : pyStrip (pyStr item) ∉ acc := by
        intro hm
        have hc : acc.contains (pyStrip (pyStr item)) = true := by
          simp [List.contains, List.elem_eq_mem, hm]
        rw [hcond.2] at hc
        exact Bool.false_ne_true hc
      simp [List.nodup_append, h, hmem]

theorem foldl_tokenStep_nodup (vs : List Value) :
    ∀ acc : List String, acc.Nodup → (vs.foldl tokenStep acc).Nodup := by
  induction vs with
  | nil => intro acc h; exact h
  | cons v t ih => intro acc h; exact ih _ (tokenStep_nodup acc v h)

theorem sensorMapStep_fold_mem (normalize : Value → List String)
    (P : String × List String → Prop)
    (hP : ∀ k v2, normalize v2 ≠ [] → P (k, normalize v2)) :
    ∀ (m : List (String × Value)) (acc : List (String × List String)),
      (∀ e ∈ acc, P e) →
      ∀ e ∈ m.foldl (sensorMapStep normalize) acc, P e := by
  intro m
  induction m with
  | nil => intro acc hacc e he; exact hacc e he
  | cons kv t ih =>
    intro acc hacc e he
    refine ih (sensorMapStep normalize acc kv) ?_ e he
    intro e2 he2
    unfold sensorMapStep at he2
    split at he2
    · exact hacc e2 he2
    · split at he2
      · exact hacc e2 he2
      · rename_i hne
        rcases List.mem_append.mp he2 with h2 | h2
        · exact hacc e2 h2
        · have : e2 = (kv.1, normalize kv.2) := List.mem_singleton.mp h2
          subst this
          exact hP kv.1 kv.2 (by simpa using hne)

theorem minList_spec (a : ℚ) (l : List ℚ) :
    minList a l ∈ a :: l ∧ ∀ x ∈ a :: l, minList a l ≤ x := by
  induction l generalizing a with
  | nil => simp [minList]
  | cons c t ih =>
    have h := ih (min a c)
    have hmem : minList a (c :: t) = minList (min a c) t := rfl
    constructor
    · rw [hmem]
      rcases List.mem_cons.mp h.1 with h1 | h1
      · rcases min_choice a c with hc | hc
        · rw [h1, hc]; exact List.mem_cons_self a (c :: t)
        · rw [h1, hc]; exact List.mem_cons.mpr (Or.inr (List.mem_cons_self c t))
      · exact List.mem_cons.mpr (Or.inr (List.mem_cons.mpr (Or.inr h1)))
    · intro x hx
      rw [hmem]
      rcases List.mem_cons.mp hx with h1 | h1
      · rw [h1]
        exact le_trans (h.2 _ (List.mem_cons_self _ _)) (min_le_left _ _)
      · rcases List.mem_cons.mp h1 with h2 | h2
        · rw [h2]
          exact le_trans (h.2 _ (List.mem_cons_self _ _)) (min_le_right _ _)
        · exact h.2 x (List.mem_cons.mpr (Or.inr h2))

theorem lookupQ_setCurrentOffset_suffix (m : QMap) (k : String) (v : ℚ)
    (hc : containsColon k = true) :
    lookupQ (setCurrentOffset m k v) (suffixAfterColon k) = some v := by
  unfold setCurrentOffset
  rw [if_pos hc]
  exact lookupQ_insertQ_self _ _ _

theorem lookupQ_setCurrentOffset_ne (m : QMap) (k : String) (v : ℚ) (k2 : String)
    (h1 : k2 ≠ k) (h2 : k2 ≠ suffixAfterColon k) :
    lookupQ (setCurrentOffset m k v) k2 = lookupQ m k2 := by
  unfold setCurrentOffset
  split
  · exact (lookupQ_insertQ_ne _ _ _ _ h2).trans (lookupQ_insertQ_ne _ _ _ _ h1)
  · exact lookupQ_insertQ_ne _ _ _ _ h1

/-! ### Claim theorems -/

/-- C10: for every zone-state mapping whose `setting.power` equals `"OFF"`,
the derived HVAC mode is the OFF mode and the derived HVAC action is
`"OFF"`, regardless of overlay presence, `setting.mode`, zone type,
heating-power percentage, or AC-power flag — power-off takes precedence
over every other branch of both derivations. -/
theorem C10_power_off_wins (data : Device) (s : Device)
    (hset : dictGet data "setting" = Value.vDict s)
    (hpow : dictGet s "power" = Value.vStr "OFF") :
    deriveHvacMode data = Value.vStr CONST_MODE_OFF
    ∧ deriveHvacAction data = Value.vStr "OFF" := by
  have hs : getSetting data = s := by rw [getSetting, hset]
  constructor
  · rw [deriveHvacMode, hs, hpow]
    simp [scalarEq]
  · rw [deriveHvacAction, hs, hpow]
    simp [scalarEq]

/-- Witness for C10 at a concrete zone state carrying an overlay, an
explicit mode, a zone type, a positive heating power and an active AC
flag: power OFF still decides both derivations. -/
theorem C10_witness :
    deriveHvacMode
        [("setting", Value.vDict
            [("power", Value.vStr "OFF"), ("mode", Value.vStr "COOL"),
             ("type", Value.vStr "AIR_CONDITIONING")]),
         ("overlay", Value.vDict [("termination", Value.vNone)]),
         ("activityDataPoints", Value.vDict
            [("heatingPower", Value.vDict [("percentage", Value.vRat 80)]),
             ("acPower", Value.vDict [("value", Value.vStr "ON")])])]
      = Value.vStr CONST_MODE_OFF
    ∧ deriveHvacAction
        [("setting", Value.vDict
            [("power", Value.vStr "OFF"), ("mode", Value.vStr "COOL"),
             ("type", Value.vStr "AIR_CONDITIONING")]),
         ("overlay", Value.vDict [("termination", Value.vNone)]),
         ("activityDataPoints", Value.vDict
            [("heatingPower", Value.vDict [("percentage", Value.vRat 80)]),
             ("acPower", Value.vDict [("value", Value.vStr "ON")])])]
      = Value.vStr "OFF" :=
  C10_power_off_wins _
    [("power", Value.vStr "OFF"), ("mode", Value.vStr "COOL"),
     ("type", Value.vStr "AIR_CONDITIONING")] rfl rfl

/-- C9 counterexample: resetting the counter from date 0 / count 5 on the
new date 1 zeroes the count, but the emitted reset log interpolates only
the new date — the previous day's final count (5) is not preserved in the
log, contrary to the claim's "preserved only in the emitted log". -/
theorem C9_counterexample :
    (resetApiCallCounterIfNeeded 1 ⟨0, 5⟩).1.count = 0
    ∧ (resetApiCallCounterIfNeeded 1 ⟨0, 5⟩).2.2 = [LogArg.argDate 1]
    ∧ LogArg.argCount 5 ∉ (resetApiCallCounterIfNeeded 1 ⟨0, 5⟩).2.2 := by
  decide

/-- C9 (amended): after every read and every tracked call the stored date
equals the current date; a read or increment on a new date first resets the
count to 0 (so the first tracked call of a new day yields exactly the
increment); on an unchanged date nothing is touched; and on reset the
previous day's final count is discarded entirely — the reset log records
only the new date and no count at all, and the counter state holds 0. -/
theorem C9_api_counter (today : Int) (c : ApiCounter) (n : Nat) :
    (resetApiCallCounterIfNeeded today c).1.date = today
    ∧ (today = c.date → resetApiCallCounterIfNeeded today c = (c, false, []))
    ∧ (today ≠ c.date →
        (resetApiCallCounterIfNeeded today c).1.count = 0
        ∧ (resetApiCallCounterIfNeeded today c).2.2 = [LogArg.argDate today]
        ∧ ∀ m, LogArg.argCount m ∉ (resetApiCallCounterIfNeeded today c).2.2)
    ∧ (trackApiCall today c n).1.date = today
    ∧ (today ≠ c.date → (trackApiCall today c n).1.count = n)
    ∧ (getApiCallCount today c).2.date = today
    ∧ (today ≠ c.date → (getApiCallCount today c).1 = 0)
    ∧ (getApiCallDate today c).1 = today := by
  by_cases h : today = c.date
  · subst h
    simp [resetApiCallCounterIfNeeded, trackApiCall, getApiCallCount, getApiCallDate]
  · simp [resetApiCallCounterIfNeeded, trackApiCall, getApiCallCount, getApiCallDate, h]

/-- Witness for C9 at date 1 over a stale state from date 0 with count 5:
the first tracked call of the new day yields count 1, a plain read yields
0, and both operations move the stored date to 1. -/
theorem C9_witness :
    (trackApiCall 1 ⟨0, 5⟩ 1).1.count = 1
    ∧ (getApiCallCount 1 ⟨0, 5⟩).1 = 0
    ∧ (trackApiCall 1 ⟨0, 5⟩ 1).1.date = 1
    ∧ (getApiCallDate 1 ⟨0, 5⟩).1 = 1 := by
  have h := C9_api_counter 1 ⟨0, 5⟩ 1
  exact ⟨h.2.2.2.2.1 (by decide), h.2.2.2.2.2.2.1 (by decide),
    h.2.2.2.1, h.2.2.2.2.2.2.2⟩

/-- C5: `get_device_key` returns, in priority order, the record's existing
non-empty `device_key` string; else TYPE:serial (first truthy of
serialNumber/serialNo/shortSerialNo); else TYPE:id; else TYPE:name; else
TYPE:#position when an index is supplied; else the bare TYPE — and it is
deterministic (a pure function of the record and index). -/
theorem C5_get_device_key (d : Device) (i : Option Int) :
    (∀ s, dictGet d "device_key" = Value.vStr s → s ≠ "" → getDeviceKey d i = s)
    ∧ ((∀ s, dictGet d "device_key" = Value.vStr s → s = "") →
        (pyTruthy (serialValue d) = true →
          getDeviceKey d i = keyTypeOf d ++ ":" ++ pyStr (serialValue d))
        ∧ (pyTruthy (serialValue d) = false →
            (pyTruthy (idValue d) = true →
              getDeviceKey d i = keyTypeOf d ++ ":" ++ pyStr (idValue d))
            ∧ (pyTruthy (idValue d) = false →
                (pyTruthy (nameValue d) = true →
                  getDeviceKey d i = keyTypeOf d ++ ":" ++ pyStr (nameValue d))
                ∧ (pyTruthy (nameValue d) = false →
                    (∀ n, i = some n →
                      getDeviceKey d i = keyTypeOf d ++ ":#" ++ toString (n + 1))
                    ∧ (i = none → getDeviceKey d i = keyTypeOf d)))))
    ∧ getDeviceKey d i = getDeviceKey d i := by
  refine ⟨?_, ?_, rfl⟩
  · intro s hs hne
    rw [getDeviceKey, hs]
    dsimp only
    rw [if_neg (by simpa using hne)]
  · intro hno
    have hsynth : getDeviceKey d i = getDeviceKeySynth d i := by
      rw [getDeviceKey]
      cases hdk : dictGet d "device_key" with
      | vStr s =>
        dsimp only
        rw [if_pos (by simpa using hno s hdk)]
      | vNone => rfl
      | vInt n => rfl
      | vBool b => rfl
      | vRat q => rfl
      | vList l => rfl
      | vDict dd => rfl
    rw [hsynth]
    unfold getDeviceKeySynth
    refine ⟨fun h1 => by rw [if_pos h1], fun h1 => ?_⟩
    rw [if_neg (by simp [h1])]
    refine ⟨fun h2 => by rw [if_pos h2], fun h2 => ?_⟩
    rw [if_neg (by simp [h2])]
    refine ⟨fun h3 => by rw [if_pos h3], fun h3 => ?_⟩
    rw [if_neg (by simp [h3])]
    exact ⟨fun n hn => by rw [hn], fun hn => by rw [hn]⟩

/-- Witness for C5: a record with only a type and a serial synthesizes
TYPE:serial; the same record with an explicit `device_key` keeps it. -/
theorem C5_witness :
    getDeviceKey [("type", Value.vStr "VA02"), ("serialNumber", Value.vStr "S1")] none
      = "VA02:S1"
    ∧ getDeviceKey
        [("device_key", Value.vStr "CUSTOM"), ("type", Value.vStr "VA02"),
         ("serialNumber", Value.vStr "S1")] (some 0)
      = "CUSTOM" := by
  constructor
  · have h := C5_get_device_key
      [("type", Value.vStr "VA02"), ("serialNumber", Value.vStr "S1")] none
    have h2 := (h.2.1 (fun s hs => by simp [dictGet, List.find?] at hs)).1 rfl
    rw [h2]
    rfl
  · have h := C5_get_device_key
      [("device_key", Value.vStr "CUSTOM"), ("type", Value.vStr "VA02"),
       ("serialNumber", Value.vStr "S1")] (some 0)
    exact h.1 "CUSTOM" rfl (by decide)

theorem connectorNormalizeZoneSensors_nodup (v : Value) :
    (connectorNormalizeZoneSensors v).Nodup := by
  unfold connectorNormalizeZoneSensors
  cases sensorValuesOf v with
  | none => simp
  | some vs => exact foldl_tokenStep_nodup vs [] List.nodup_nil

theorem initNormalizeZoneSensors_rel (v : Value) :
    initNormalizeZoneSensors v
      = (match connectorNormalizeZoneSensors v with
         | [] => ([] : List String)
         | h :: t => [(h :: t).getLastD ""]) := rfl

theorem initNormalizeZoneSensors_length (v : Value) :
    initNormalizeZoneSensors v = [] ∨ (initNormalizeZoneSensors v).length = 1 := by
  rw [initNormalizeZoneSensors_rel]
  cases connectorNormalizeZoneSensors v with
  | nil => exact Or.inl rfl
  | cons a t => exact Or.inr rfl

/-- C2 counterexample: the connector's own zone-sensor-map normalization
(`TadoConnector._normalize_zone_sensor_map`) stores BOTH supplied sensors —
the list has length 2, not 1, contrary to the claim that every stored list
has exactly the last supplied sensor. -/
theorem C2_counterexample :
    connectorNormalizeZoneSensorMap
        [("1", Value.vList [Value.vStr "sensor.a", Value.vStr "sensor.b"])]
      = [("1", ["sensor.a", "sensor.b"])]
    ∧ (["sensor.a", "sensor.b"] : List String).length ≠ 1 := by
  exact ⟨rfl, by decide⟩

/-- C2 (amended): the connector's normalization deduplicates (first
occurrence wins) and preserves the supplied order but does not truncate, so
a map supplied directly to the connector can store lists of length greater
than one; the collapse to exactly one sensor — the last element of the
deduplicated list — is performed by the module-level normalization in
`__init__.py`, which the integration applies before handing the map to the
connector at setup. -/
theorem C2_zone_sensor_normalization (v : Value) (m : List (String × Value))
    (k : String) (l : List String) :
    (connectorNormalizeZoneSensors v).Nodup
    ∧ (initNormalizeZoneSensors v).length ≤ 1
    ∧ (connectorNormalizeZoneSensors v ≠ [] →
        initNormalizeZoneSensors v = [(connectorNormalizeZoneSensors v).getLastD ""])
    ∧ ((k, l) ∈ connectorNormalizeZoneSensorMap m → l.Nodup ∧ l ≠ [])
    ∧ ((k, l) ∈ initNormalizeZoneSensorMap m → l.length = 1) := by
  refine ⟨connectorNormalizeZoneSensors_nodup v, ?_, ?_, ?_, ?_⟩
  · rcases initNormalizeZoneSensors_length v with h | h
    · rw [h]; exact Nat.zero_le 1
    · rw [h]
  · intro hne
    rw [initNormalizeZoneSensors_rel]
    cases hc : connectorNormalizeZoneSensors v with
    | nil => exact absurd hc hne
    | cons a t => rfl
  · intro hmem
    exact sensorMapStep_fold_mem connectorNormalizeZoneSensors
      (fun e => e.2.Nodup ∧ e.2 ≠ [])
      (fun k2 v2 hne => ⟨connectorNormalizeZoneSensors_nodup v2, hne⟩)
      m [] (by simp) (k, l) hmem
  · intro hmem
    exact sensorMapStep_fold_mem initNormalizeZoneSensors
      (fun e => e.2.length = 1)
      (fun k2 v2 hne => (initNormalizeZoneSensors_length v2).resolve_left hne)
      m [] (by simp) (k, l) hmem

/-- Witness for C2 (amended) on the input ["b", "a", "b"]: the connector
keeps the deduplicated ["b", "a"], and the module-level normalization keeps
exactly its last element ["a"]. -/
theorem C2_witness :
    initNormalizeZoneSensors
        (Value.vList [Value.vStr "b", Value.vStr "a", Value.vStr "b"]) = ["a"]
    ∧ (["b", "a"] : List String).Nodup := by
  have h := C2_zone_sensor_normalization
    (Value.vList [Value.vStr "b", Value.vStr "a", Value.vStr "b"]) [] "" []
  have hcomp : connectorNormalizeZoneSensors
      (Value.vList [Value.vStr "b", Value.vStr "a", Value.vStr "b"]) = ["b", "a"] := rfl
  constructor
  · have h3 := h.2.2.1 (by rw [hcomp]; exact fun he => List.noConfusion he)
    rw [h3, hcomp]
    rfl
  · exact hcomp ▸ h.1

/-- C8: for a truthy device id, a failed remote `set_temp_offset` write is
only absorbed — the runtime offset state is unchanged, no change
notification is dispatched and no device refresh runs; a successful write
with a supplied non-empty device key records the offset under the full key
and (when the key contains a colon) under its legacy bare-suffix alias,
dispatches the notification, and refreshes devices exactly when
`update_devices` is true. -/
theorem C8_set_temperature_offset (remote : Value → ℚ → Bool) (devices : List Device)
    (current : QMap) (deviceId : Value) (offset : ℚ) (k : String) (updateDevices : Bool)
    (hid : pyTruthy deviceId = true) :
    (remote deviceId offset = false →
      setTemperatureOffset remote devices current deviceId offset (some k) updateDevices
        = { current := current, remoteAttempted := true, remoteOk := false,
            signalSent := false, refreshed := false })
    ∧ (remote deviceId offset = true → k ≠ "" →
        lookupQ (setTemperatureOffset remote devices current deviceId offset (some k)
          updateDevices).current k = some offset
        ∧ (containsColon k = true →
            lookupQ (setTemperatureOffset remote devices current deviceId offset (some k)
              updateDevices).current (suffixAfterColon k) = some offset)
        ∧ (setTemperatureOffset remote devices current deviceId offset (some k)
            updateDevices).signalSent = true
        ∧ (setTemperatureOffset remote devices current deviceId offset (some k)
            updateDevices).refreshed = updateDevices) := by
  constructor
  · intro hrem
    unfold setTemperatureOffset
    rw [if_neg (by simp [hid]), if_pos (by simp [hrem])]
  · intro hrem hk
    have hred : setTemperatureOffset remote devices current deviceId offset (some k)
        updateDevices
        = { current := setCurrentOffset current k offset, remoteAttempted := true,
            remoteOk := true, signalSent := true, refreshed := updateDevices } := by
      unfold setTemperatureOffset
      rw [if_neg (by simp [hid]), if_neg (by simp [hrem])]
      dsimp only
      rw [if_pos (by simpa using hk)]
    rw [hred]
    exact ⟨lookupQ_setCurrentOffset_self current k offset,
      fun hc => lookupQ_setCurrentOffset_suffix current k offset hc, rfl, rfl⟩

/-- Witness for C8: a successful write for id S1 under key VA02:S1 records
3/2 under both the full key and the legacy alias S1 without refreshing
(update_devices=False); a failed write leaves the prior state intact with
no notification and no refresh. -/
theorem C8_witness :
    lookupQ (setTemperatureOffset (fun _ _ => true) [] [] (Value.vStr "S1") (3/2)
      (some "VA02:S1") false).current "VA02:S1" = some (3/2)
    ∧ lookupQ (setTemperatureOffset (fun _ _ => true) [] [] (Value.vStr "S1") (3/2)
      (some "VA02:S1") false).current "S1" = some (3/2)
    ∧ (setTemperatureOffset (fun _ _ => true) [] [] (Value.vStr "S1") (3/2)
      (some "VA02:S1") false).refreshed = false
    ∧ setTemperatureOffset (fun _ _ => false) [] [("K", 1)] (Value.vStr "S1") (3/2)
        (some "K") true
      = { current := [("K", 1)], remoteAttempted := true, remoteOk := false,
          signalSent := false, refreshed := false } := by
  have h := C8_set_temperature_offset (fun _ _ => true) [] [] (Value.vStr "S1") (3/2)
    "VA02:S1" false (by decide)
  have h2 := C8_set_temperature_offset (fun _ _ => false) [] [("K", 1)] (Value.vStr "S1")
    (3/2) "K" true (by decide)
  have hs := h.2 rfl (by decide)
  exact ⟨hs.1, hs.2.1 (by decide), hs.2.2.2, h2.1 rfl⟩

/-- C1 counterexample: with no per-device offsets and a per-device-type
offset of 3.0 configured for VA02, `get_device_offset` on a VA02 device
returns None — the claim's resolver (which falls back to the per-type
layer) returns 3.0. The function never consults the per-type or wildcard
offsets. -/
theorem C1_counterexample :
    getDeviceOffset (initCurrentOffsets [])
        [("type", Value.vStr "VA02"), ("serialNumber", Value.vStr "S1")]
        (some "VA02:S1") = none
    ∧ claimResolveOffset (initCurrentOffsets []) [] [("VA02", 3)]
        [("type", Value.vStr "VA02"), ("serialNumber", Value.vStr "S1")]
        "VA02:S1" = some 3
    ∧ (none : Option ℚ) ≠ some 3 := by
  refine ⟨rfl, rfl, by decide⟩

/-- C1 (amended): `get_device_offset` resolves only the runtime-current
offset map — the full key, then (when the key contains a colon) the legacy
bare suffix, then any raw-identifier match — and returns None when all
three miss; the static per-device layer is visible only because the
runtime-current map is initialized as a copy of the per-device static
offsets at construction; per-device-type and wildcard offsets never enter
this lookup directly — they take effect only through the one-shot
`_apply_device_offsets` writes at setup, whose static-offset selection
prefers the per-device offset (full key, then legacy suffix) over the
exact-type offset over the wildcard. -/
theorem C1_offset_resolution (current deviceOffsets typeOffsets : QMap) (d : Device)
    (k : String) (v : ℚ) :
    (lookupQ current k = some v → getDeviceOffset current d (some k) = some v)
    ∧ (lookupQ current k = none → containsColon k = true →
        lookupQ current (suffixAfterColon k) = some v →
        getDeviceOffset current d (some k) = some v)
    ∧ (lookupQ current k = none →
        (containsColon k = true → lookupQ current (suffixAfterColon k) = none) →
        ∀ s, rawIdValue d = Value.vStr s → pyTruthy (rawIdValue d) = true →
          getDeviceOffset current d (some k) = lookupQ current s)
    ∧ (lookupQ current k = none →
        (containsColon k = true → lookupQ current (suffixAfterColon k) = none) →
        pyTruthy (rawIdValue d) = false →
        getDeviceOffset current d (some k) = none)
    ∧ getDeviceOffset (initCurrentOffsets deviceOffsets) d (some k)
        = getDeviceOffset deviceOffsets d (some k)
    ∧ (lookupQ deviceOffsets k = some v →
        staticOffsetFor deviceOffsets typeOffsets k (getDeviceType d) = some v)
    ∧ (lookupQ deviceOffsets k = none → containsColon k = true →
        lookupQ deviceOffsets (suffixAfterColon k) = some v →
        staticOffsetFor deviceOffsets typeOffsets k (getDeviceType d) = some v)
    ∧ (lookupQ deviceOffsets k = none →
        (containsColon k = true → lookupQ deviceOffsets (suffixAfterColon k) = none) →
        ∀ dt, getDeviceType d = some dt → dt ≠ "" → lookupQ typeOffsets dt = some v →
          staticOffsetFor deviceOffsets typeOffsets k (getDeviceType d) = some v)
    ∧ (lookupQ deviceOffsets k = none →
        (containsColon k = true → lookupQ deviceOffsets (suffixAfterColon k) = none) →
        ∀ dt, getDeviceType d = some dt → lookupQ typeOffsets dt = none →
          staticOffsetFor deviceOffsets typeOffsets k (getDeviceType d)
            = lookupQ typeOffsets "*") := by
  have hsuffix2 : ∀ (m : QMap), lookupQ m k = none →
      (containsColon k = true → lookupQ m (suffixAfterColon k) = none) →
      (match lookupQ m k with
       | some v2 => some v2
       | none => if containsColon k then lookupQ m (suffixAfterColon k) else none)
        = (none : Option ℚ) := by
    intro m h1 h2
    rw [h1]
    by_cases hc : containsColon k
    · rw [if_pos hc, h2 hc]
    · rw [if_neg hc]
  refine ⟨?_, ?_, ?_, ?_, rfl, ?_, ?_, ?_, ?_⟩
  · intro h1
    simp only [getDeviceOffset, h1]
  · intro h1 hc h2
    simp only [getDeviceOffset, h1, hc, if_true, h2]
  · intro h1 h2 s hraw htr
    simp only [getDeviceOffset]
    rw [hsuffix2 current h1 h2]
    rw [htr]
    simp only [if_true, hraw]
  · intro h1 h2 htr
    simp only [getDeviceOffset]
    rw [hsuffix2 current h1 h2]
    rw [htr]
    simp
  · intro h1
    simp only [staticOffsetFor, h1]
  · intro h1 hc h2
    simp only [staticOffsetFor, h1, hc, if_true, h2]
  · intro h1 h2 dt hdt hne h3
    simp only [staticOffsetFor]
    rw [hsuffix2 deviceOffsets h1 h2, hdt]
    dsimp only
    rw [if_pos (by simp [hne, h3])]
    exact h3
  · intro h1 h2 dt hdt h3
    simp only [staticOffsetFor]
    rw [hsuffix2 deviceOffsets h1 h2, hdt]
    dsimp only
    rw [if_neg (by simp [h3])]

/-- Witness for C1 (amended): a runtime-current hit wins; the static
selection of `_apply_device_offsets` prefers the exact-type offset over the
wildcard, and falls back to the wildcard when the exact type is absent. -/
theorem C1_witness :
    getDeviceOffset [("VA02:S1", 5)] [("type", Value.vStr "VA02")] (some "VA02:S1")
      = some 5
    ∧ staticOffsetFor [] [("VA02", 3), ("*", 7)] "VA02:S1"
        (getDeviceType [("type", Value.vStr "VA02")]) = some 3
    ∧ staticOffsetFor [] [("*", 7)] "VA02:S1"
        (getDeviceType [("type", Value.vStr "VA02")]) = some 7 := by
  have h1 := C1_offset_resolution [("VA02:S1", 5)] [] [] [("type", Value.vStr "VA02")]
    "VA02:S1" 5
  have h2 := C1_offset_resolution [] [] [("VA02", 3), ("*", 7)]
    [("type", Value.vStr "VA02")] "VA02:S1" 3
  have h3 := C1_offset_resolution [] [] [("*", 7)] [("type", Value.vStr "VA02")]
    "VA02:S1" 7
  refine ⟨h1.1 rfl, ?_, ?_⟩
  · exact h2.2.2.2.2.2.2.2.1 rfl (fun _ => rfl) "VA02" rfl (by decide) rfl
  · exact (h3.2.2.2.2.2.2.2.2 rfl (fun _ => rfl) "VA02" rfl rfl).trans rfl

/-- C7: when the `me` fetch during setup resolves to zero homes (empty or
missing homes collection), setup fails with an error before the zone
listing or device listing is fetched — the remote-call trace is exactly the
`get_me` call, containing neither `get_zones` nor `get_devices`. -/
theorem C7_setup_zero_homes (c : SetupClient) (ov : Overrides)
    (deviceOffsets typeOffsets : QMap) (isX0 : Bool) (current0 : QMap)
    (offsetsApplied0 : Bool) (meV : Value)
    (hinit : c.initOk = .ok ()) (hme : c.me = .ok meV)
    (hzero : pyTruthy (setupHomesOf meV) = false) :
    (setup c ov deviceOffsets typeOffsets isX0 current0 offsetsApplied0).1
      = .error .runtimeError
    ∧ (setup c ov deviceOffsets typeOffsets isX0 current0 offsetsApplied0).2
      = [CallTag.getMe]
    ∧ CallTag.getZones ∉ (setup c ov deviceOffsets typeOffsets isX0 current0
        offsetsApplied0).2
    ∧ CallTag.getDevices ∉ (setup c ov deviceOffsets typeOffsets isX0 current0
        offsetsApplied0).2 := by
  have hext : extractHomeInfo meV = .error .runtimeError := by
    unfold extractHomeInfo
    rw [if_pos (by simp [hzero])]
  have hsetup : setup c ov deviceOffsets typeOffsets isX0 current0 offsetsApplied0
      = (.error .runtimeError, [CallTag.getMe]) := by
    unfold setup
    rw [hinit]
    dsimp only
    rw [hme]
    dsimp only
    rw [hext]
  rw [hsetup]
  exact ⟨rfl, rfl, by decide, by decide⟩

/-- Witness for C7: a `me` payload whose homes list is empty makes setup
fail with the no-homes error after only the `get_me` call. -/
theorem C7_witness :
    (setup
        ⟨.ok (), .ok (Value.vDict [("homes", Value.vList [])]), .ok (Value.vList []),
          .ok (Value.vList []), fun _ _ => true⟩
        ⟨[], []⟩ [] [] false [] false).1 = .error .runtimeError
    ∧ (setup
        ⟨.ok (), .ok (Value.vDict [("homes", Value.vList [])]), .ok (Value.vList []),
          .ok (Value.vList []), fun _ _ => true⟩
        ⟨[], []⟩ [] [] false [] false).2 = [CallTag.getMe]
    ∧ CallTag.getZones ∉ (setup
        ⟨.ok (), .ok (Value.vDict [("homes", Value.vList [])]), .ok (Value.vList []),
          .ok (Value.vList []), fun _ _ => true⟩
        ⟨[], []⟩ [] [] false [] false).2 := by
  have h := C7_setup_zero_homes
    ⟨.ok (), .ok (Value.vDict [("homes", Value.vList [])]), .ok (Value.vList []),
      .ok (Value.vList []), fun _ _ => true⟩
    ⟨[], []⟩ [] [] false [] false (Value.vDict [("homes", Value.vList [])])
    rfl rfl rfl
  exact ⟨h.1, h.2.1, h.2.2.1⟩

/-- C6: when the device fetch of `update_devices` fails with a transient
remote error (a TadoException or RuntimeError from the client), that step
alone is aborted — it returns normally with the stored data (including
`data["device"]`) intact — and `update` still executes
`update_mobile_devices`, `update_zones` and `update_home` on the unchanged
state; when those steps complete, `update` returns normally. -/
theorem C6_update_devices_transient (client : Client) (isX : Bool) (ov : Overrides)
    (data : ConnData)
    (h : client.getDevices = .error .tadoException
      ∨ client.getDevices = .error .runtimeError) :
    updateDevices client isX ov data = .ok (data, 0, [CallTag.getDevices])
    ∧ update client isX ov data
      = (match updateMobileDevices client data with
         | .error e => .error e
         | .ok (d2, t2) =>
           match updateZones client d2 with
           | .error e => .error e
           | .ok (d3, _, _, t3) =>
             match updateHome client d3 with
             | .error e => .error e
             | .ok (d4, t4) => .ok (d4, [CallTag.getDevices] ++ t2 ++ t3 ++ t4))
    ∧ ∀ d2 t2 d3 a b t3 d4 t4,
        updateMobileDevices client data = .ok (d2, t2) →
        updateZones client d2 = .ok (d3, a, b, t3) →
        updateHome client d3 = .ok (d4, t4) →
        update client isX ov data = .ok (d4, [CallTag.getDevices] ++ t2 ++ t3 ++ t4) := by
  have h1 : updateDevices client isX ov data = .ok (data, 0, [CallTag.getDevices]) := by
    rcases h with h | h
    · unfold updateDevices; rw [h]; rfl
    · unfold updateDevices; rw [h]; rfl
  refine ⟨h1, ?_, ?_⟩
  · unfold update
    rw [h1]
  · intro d2 t2 d3 a b t3 d4 t4 hm hz hh
    unfold update
    rw [h1]
    dsimp only
    rw [hm]
    dsimp only
    rw [hz]
    dsimp only
    rw [hh]

/-- Witness for C6: a client whose device fetch raises a transient
TadoException (and whose mobile fetch also fails transiently) still
completes the full poll — the previously stored device entry survives and
the weather/geofence calls are made. -/
theorem C6_witness :
    update
        ⟨.error .tadoException, fun _ => .ok (.vDict []), .error .tadoException,
          fun _ => .ok (.vDict []), fun _ => .ok (.vDict []), .ok (.vDict []),
          .ok (.vDict [])⟩
        false ⟨[], []⟩
        ⟨[(Value.vStr "X", [("serialNumber", Value.vStr "X")])], [], [], [], [], []⟩
      = .ok (⟨[(Value.vStr "X", [("serialNumber", Value.vStr "X")])], [], [], [], [], []⟩,
          [CallTag.getDevices, CallTag.getMobileDevices, CallTag.getWeather,
           CallTag.getHomeState]) := by
  have h := C6_update_devices_transient
    ⟨.error .tadoException, fun _ => .ok (.vDict []), .error .tadoException,
      fun _ => .ok (.vDict []), fun _ => .ok (.vDict []), .ok (.vDict []),
      .ok (.vDict [])⟩
    false ⟨[], []⟩
    ⟨[(Value.vStr "X", [("serialNumber", Value.vStr "X")])], [], [], [], [], []⟩
    (Or.inl rfl)
  exact h.2.2
    ⟨[(Value.vStr "X", [("serialNumber", Value.vStr "X")])], [], [], [], [], []⟩
    [CallTag.getMobileDevices]
    ⟨[(Value.vStr "X", [("serialNumber", Value.vStr "X")])], [], [], [], [], []⟩
    0 0 []
    ⟨[(Value.vStr "X", [("serialNumber", Value.vStr "X")])], [], [], [], [], []⟩
    [CallTag.getWeather, CallTag.getHomeState]
    rfl rfl rfl

/-- C3: whenever `_auto_adjust_offsets` completes a pass for a zone (at
least one mapped sensor survived filtering and the zone has a current
temperature), the reference temperature is the minimum of the surviving
readings, the average offset is the arithmetic mean of the resolved current
offsets of the zone's mapped linkable devices (0 when none resolve), the
target equals round-to-one-decimal of clamp(reference - (zone_temp -
avg_offset), -10, 10), and in particular a raw target of 15 is applied as
10. -/
theorem C3_auto_adjust_formula (cfg : AutoCfg) (hass : Hass) (remote : Value → ℚ → Bool)
    (st : AutoState) (zoneId : Int) (sT avg tgt : ℚ) (cur : QMap) (ws : List AutoWrite)
    (h : autoAdjustOffsets cfg hass remote st zoneId = .ran sT avg tgt cur ws) :
    (sT ∈ survivingTemps hass (connectorNormalizeZoneSensors
        (lookupSensorMapValue st.zoneSensorMap (toString zoneId)))
      ∧ ∀ x ∈ survivingTemps hass (connectorNormalizeZoneSensors
          (lookupSensorMapValue st.zoneSensorMap (toString zoneId))), sT ≤ x)
    ∧ avg = (if (zoneCurrentOffsets cfg st.current st.devices (toString zoneId)).isEmpty
        then 0
        else (zoneCurrentOffsets cfg st.current st.devices (toString zoneId)).sum
          / (zoneCurrentOffsets cfg st.current st.devices (toString zoneId)).length)
    ∧ (∀ t, lookupZoneData st.zoneData zoneId = some (some t) →
        tgt = pyRound1 (max (-10) (min 10 (sT - (t - avg)))))
    ∧ (∀ t, lookupZoneData st.zoneData zoneId = some (some t) →
        sT - (t - avg) = 15 → tgt = 10) := by
  have hs : autoAdjustWithSensors cfg hass remote st zoneId
      (connectorNormalizeZoneSensors
        (lookupSensorMapValue st.zoneSensorMap (toString zoneId)))
      = .ran sT avg tgt cur ws := by
    unfold autoAdjustOffsets at h
    split at h
    · exact AutoOutcome.noConfusion h
    · exact h
  obtain ⟨t, ts, heq, h2⟩ : ∃ t ts,
      survivingTemps hass (connectorNormalizeZoneSensors
        (lookupSensorMapValue st.zoneSensorMap (toString zoneId))) = t :: ts
      ∧ autoAdjustWithTemps cfg remote st zoneId (minList t ts)
          = .ran sT avg tgt cur ws := by
    unfold autoAdjustWithSensors at hs
    split at hs
    · exact AutoOutcome.noConfusion hs
    · split at hs
      · exact AutoOutcome.noConfusion hs
      · rename_i t ts heq
        exact ⟨t, ts, heq, hs⟩
  obtain ⟨ct, hzd, h3⟩ : ∃ ct,
      lookupZoneData st.zoneData zoneId = some (some ct)
      ∧ autoAdjustRun cfg remote st zoneId (minList t ts) ct
          = .ran sT avg tgt cur ws := by
    unfold autoAdjustWithTemps at h2
    split at h2
    · exact AutoOutcome.noConfusion h2
    · exact AutoOutcome.noConfusion h2
    · rename_i ct heq2
      exact ⟨ct, heq2, h2⟩
  unfold autoAdjustRun at h3
  injection h3 with h1 hA hT hC hW
  subst h1
  subst hA
  subst hT
  refine ⟨?_, rfl, ?_, ?_⟩
  · rw [heq]
    exact minList_spec t ts
  · intro t2 ht2
    rw [hzd] at ht2
    have hct : ct = t2 := by
      injection ht2 with ht3
      injection ht3
    rw [← hct]
  · intro t2 ht2 h15
    rw [hzd] at ht2
    have hct : ct = t2 := by
      injection ht2 with ht3
      injection ht3
    subst hct
    rw [h15]
    norm_num [pyRound1, roundHalfEvenZ]

/-- Witness for C3: one mapped sensor reading 18, zone temperature 20, no
resolvable device offsets — the reference is 18, the average offset 0, and
the computed target round1(clamp(18 - 20)) = -2; the pass runs and issues
that non-propagating write. -/
theorem C3_witness :
    autoAdjustOffsets
        ⟨["VA"], ⟨[], []⟩, [("VA02:S1", "7")]⟩
        [("sensor.a", SensorState.numeric 18)]
        (fun _ _ => true)
        ⟨[], [("7", Value.vStr "sensor.a")],
          [[("type", Value.vStr "VA02"), ("serialNumber", Value.vStr "S1")]],
          [(7, some 20)]⟩
        7
      = .ran 18 0 (-2) [("VA02:S1", -2), ("S1", -2)]
          [⟨0, Value.vStr "S1", -2, "VA02:S1", false⟩]
    ∧ (-2 : ℚ) = pyRound1 (max (-10) (min 10 ((18 : ℚ) - (20 - 0)))) := by
  have hrun : autoAdjustOffsets
      ⟨["VA"], ⟨[], []⟩, [("VA02:S1", "7")]⟩
      [("sensor.a", SensorState.numeric 18)]
      (fun _ _ => true)
      ⟨[], [("7", Value.vStr "sensor.a")],
        [[("type", Value.vStr "VA02"), ("serialNumber", Value.vStr "S1")]],
        [(7, some 20)]⟩
      7
      = .ran 18 0 (-2) [("VA02:S1", -2), ("S1", -2)]
          [⟨0, Value.vStr "S1", -2, "VA02:S1", false⟩] := by
    rfl
  have h := C3_auto_adjust_formula _ _ _ _ _ _ _ _ _ _ hrun
  exact ⟨hrun, h.2.2.1 20 rfl⟩

theorem autoWriteStep_cases (cfg : AutoCfg) (remote : Value → ℚ → Bool)
    (devices : List Device) (zoneKey : String) (target : ℚ)
    (acc : QMap × List AutoWrite × Bool) (p : Nat × Device) :
    autoWriteStep cfg remote devices zoneKey target acc p = acc
    ∨ autoWriteStep cfg remote devices zoneKey target acc p
        = ((setTemperatureOffset remote devices acc.1
              (autoDeviceId cfg p.2 (deviceKeyOf p.2 p.1)) target
              (some (deviceKeyOf p.2 p.1)) false).current,
           acc.2.1 ++ [⟨p.1, autoDeviceId cfg p.2 (deviceKeyOf p.2 p.1), target,
             deviceKeyOf p.2 p.1, false⟩], true) := by
  unfold autoWriteStep
  dsimp only
  split
  · exact Or.inl rfl
  · split
    · exact Or.inl rfl
    · split
      · exact Or.inl rfl
      · split
        · exact Or.inl rfl
        · exact Or.inr rfl

theorem autoWriteStep_writes_mono (cfg : AutoCfg) (remote : Value → ℚ → Bool)
    (devices : List Device) (zoneKey : String) (target : ℚ)
    (acc : QMap × List AutoWrite × Bool) (p : Nat × Device) :
    ∃ tail, (autoWriteStep cfg remote devices zoneKey target acc p).2.1
      = acc.2.1 ++ tail := by
  rcases autoWriteStep_cases cfg remote devices zoneKey target acc p with h | h
  · exact ⟨[], by rw [h]; simp⟩
  · exact ⟨_, by rw [h]⟩

theorem autoWriteFold_writes_mono (cfg : AutoCfg) (remote : Value → ℚ → Bool)
    (devices : List Device) (zoneKey : String) (target : ℚ) :
    ∀ (l : List (Nat × Device)) (acc : QMap × List AutoWrite × Bool),
      ∃ tail, (l.foldl (autoWriteStep cfg remote devices zoneKey target) acc).2.1
        = acc.2.1 ++ tail := by
  intro l
  induction l with
  | nil => intro acc; exact ⟨[], by simp⟩
  | cons p t ih =>
    intro acc
    obtain ⟨t1, h1⟩ := autoWriteStep_writes_mono cfg remote devices zoneKey target acc p
    obtain ⟨t2, h2⟩ := ih (autoWriteStep cfg remote devices zoneKey target acc p)
    exact ⟨t1 ++ t2, by rw [List.foldl_cons, h2, h1, List.append_assoc]⟩

theorem setTemperatureOffset_lookup_ne (remote : Value → ℚ → Bool)
    (devices : List Device) (current : QMap) (did : Value) (offset : ℚ)
    (k : String) (updateDevices : Bool) (k2 : String)
    (h1 : k2 ≠ k) (h2 : k2 ≠ suffixAfterColon k) (hdid : k2 ≠ pyStr did) :
    lookupQ (setTemperatureOffset remote devices current did offset (some k)
      updateDevices).current k2 = lookupQ current k2 := by
  unfold setTemperatureOffset
  split
  · rfl
  · split
    · rfl
    · dsimp only
      split
      · exact lookupQ_setCurrentOffset_ne current k offset k2 h1 h2
      · exact lookupQ_insertQ_ne current (pyStr did) offset k2 hdid

theorem autoWriteStep_map_ne (cfg : AutoCfg) (remote : Value → ℚ → Bool)
    (devices : List Device) (zoneKey : String) (target : ℚ)
    (acc : QMap × List AutoWrite × Bool) (p : Nat × Device) (k2 : String)
    (h : ∀ w ∈ (autoWriteStep cfg remote devices zoneKey target acc p).2.1,
        k2 ≠ w.deviceKey ∧ k2 ≠ suffixAfterColon w.deviceKey ∧ k2 ≠ pyStr w.deviceId) :
    lookupQ (autoWriteStep cfg remote devices zoneKey target acc p).1 k2
      = lookupQ acc.1 k2 := by
  rcases autoWriteStep_cases cfg remote devices zoneKey target acc p with hc | hc
  · rw [hc]
  · have hw := h ⟨p.1, autoDeviceId cfg p.2 (deviceKeyOf p.2 p.1), target,
      deviceKeyOf p.2 p.1, false⟩ (by rw [hc]; simp)
    rw [hc]
    exact setTemperatureOffset_lookup_ne remote devices acc.1
      (autoDeviceId cfg p.2 (deviceKeyOf p.2 p.1)) target (deviceKeyOf p.2 p.1) false k2
      hw.1 hw.2.1 hw.2.2

theorem autoWriteFold_preserve (cfg : AutoCfg) (remote : Value → ℚ → Bool)
    (devices : List Device) (zoneKey : String) (target : ℚ) (k2 : String) :
    ∀ (l : List (Nat × Device)) (acc : QMap × List AutoWrite × Bool),
      (∀ w ∈ (l.foldl (autoWriteStep cfg remote devices zoneKey target) acc).2.1,
        k2 ≠ w.deviceKey ∧ k2 ≠ suffixAfterColon w.deviceKey ∧ k2 ≠ pyStr w.deviceId) →
      lookupQ (l.foldl (autoWriteStep cfg remote devices zoneKey target) acc).1 k2
        = lookupQ acc.1 k2 := by
  intro l
  induction l with
  | nil => intro acc _; rfl
  | cons p t ih =>
    intro acc h
    rw [List.foldl_cons] at h ⊢
    obtain ⟨tail, htail⟩ := autoWriteFold_writes_mono cfg remote devices zoneKey target t
      (autoWriteStep cfg remote devices zoneKey target acc p)
    have hstep : ∀ w ∈ (autoWriteStep cfg remote devices zoneKey target acc p).2.1,
        k2 ≠ w.deviceKey ∧ k2 ≠ suffixAfterColon w.deviceKey ∧ k2 ≠ pyStr w.deviceId :=
      fun w hw => h w (by rw [htail]; exact List.mem_append.mpr (Or.inl hw))
    exact (ih (autoWriteStep cfg remote devices zoneKey target acc p) h).trans
      (autoWriteStep_map_ne cfg remote devices zoneKey target acc p k2 hstep)

theorem getDeviceOffset_congr (m1 m2 : QMap) (d : Device) (k : String)
    (h1 : lookupQ m1 k = lookupQ m2 k)
    (h2 : lookupQ m1 (suffixAfterColon k) = lookupQ m2 (suffixAfterColon k))
    (h3 : ∀ s, rawIdValue d = Value.vStr s → lookupQ m1 s = lookupQ m2 s) :
    getDeviceOffset m1 d (some k) = getDeviceOffset m2 d (some k) := by
  unfold getDeviceOffset
  dsimp only
  rw [h1, h2]
  cases hr : rawIdValue d
  case vStr s =>
    dsimp only
    rw [h3 s hr]
  all_goals rfl

/-- C4 (amended): in the write loop of `_auto_adjust_offsets`, a device
whose resolved offset is within 0.1 of the target gets no `set_offset`
write and its processing step leaves the offset map untouched; a linkable
mapped device with a resolvable id and either no resolved offset or a
deviation of at least 0.1 gets exactly one non-propagating write
(`update_devices=False`); the whole pass changes the map only at the full
keys, legacy-suffix aliases and stringified ids of the issued writes, so a
device whose lookup keys avoid all of those keeps its resolved offset
across the pass (a shared legacy-suffix alias written for another device
can change it). -/
theorem C4_hysteresis_and_writes (cfg : AutoCfg) (remote : Value → ℚ → Bool)
    (devices : List Device) (zoneKey : String) (target : ℚ)
    (acc : QMap × List AutoWrite × Bool) (idx : Nat) (d : Device)
    (l : List (Nat × Device)) (cur : QMap) (d2 : Device) (key2 : String) (o : ℚ) :
    (getDeviceOffset acc.1 d (some (deviceKeyOf d idx)) = some o →
      |o - target| < 1/10 →
      autoWriteStep cfg remote devices zoneKey target acc (idx, d) = acc)
    ∧ (isLinkable cfg (getDeviceType d) = true →
        mappedZoneMatches cfg.deviceZoneMap (deviceKeyOf d idx) zoneKey = true →
        pyTruthy (autoDeviceId cfg d (deviceKeyOf d idx)) = true →
        (getDeviceOffset acc.1 d (some (deviceKeyOf d idx)) = none
          ∨ (getDeviceOffset acc.1 d (some (deviceKeyOf d idx)) = some o
              ∧ ¬ |o - target| < 1/10)) →
        autoWriteStep cfg remote devices zoneKey target acc (idx, d)
          = ((setTemperatureOffset remote devices acc.1
                (autoDeviceId cfg d (deviceKeyOf d idx)) target
                (some (deviceKeyOf d idx)) false).current,
             acc.2.1 ++ [⟨idx, autoDeviceId cfg d (deviceKeyOf d idx), target,
               deviceKeyOf d idx, false⟩], true))
    ∧ (∀ k2 : String,
        (∀ w ∈ (l.foldl (autoWriteStep cfg remote devices zoneKey target)
            (cur, [], false)).2.1,
          k2 ≠ w.deviceKey ∧ k2 ≠ suffixAfterColon w.deviceKey ∧ k2 ≠ pyStr w.deviceId) →
        lookupQ (l.foldl (autoWriteStep cfg remote devices zoneKey target)
            (cur, [], false)).1 k2 = lookupQ cur k2)
    ∧ ((∀ w ∈ (l.foldl (autoWriteStep cfg remote devices zoneKey target)
            (cur, [], false)).2.1,
          key2 ≠ w.deviceKey ∧ key2 ≠ suffixAfterColon w.deviceKey
          ∧ key2 ≠ pyStr w.deviceId
          ∧ suffixAfterColon key2 ≠ w.deviceKey
          ∧ suffixAfterColon key2 ≠ suffixAfterColon w.deviceKey
          ∧ suffixAfterColon key2 ≠ pyStr w.deviceId
          ∧ (∀ s, rawIdValue d2 = Value.vStr s →
              s ≠ w.deviceKey ∧ s ≠ suffixAfterColon w.deviceKey ∧ s ≠ pyStr w.deviceId)) →
        getDeviceOffset (l.foldl (autoWriteStep cfg remote devices zoneKey target)
            (cur, [], false)).1 d2 (some key2)
          = getDeviceOffset cur d2 (some key2)) := by
  refine ⟨?_, ?_, ?_, ?_⟩
  · intro hoff hlt
    unfold autoWriteStep
    dsimp only
    split
    · rfl
    · split
      · rfl
      · split
        · rfl
        · rw [hoff]
          dsimp only
          rw [if_pos (decide_eq_true hlt)]
  · intro hlink hmap hid hdev
    unfold autoWriteStep
    dsimp only
    rw [if_neg (by simp [hlink]), if_neg (by simp [hmap]), if_neg (by simp [hid])]
    rcases hdev with hnone | ⟨hsome, hge⟩
    · rw [hnone]
      dsimp only
      rfl
    · rw [hsome]
      dsimp only
      rw [if_neg (by simp only [decide_eq_true_eq]; exact hge)]
  · intro k2 h
    exact autoWriteFold_preserve cfg remote devices zoneKey target k2 l (cur, [], false) h
  · intro h
    refine getDeviceOffset_congr _ _ d2 key2 ?_ ?_ ?_
    · exact autoWriteFold_preserve cfg remote devices zoneKey target key2 l (cur, [], false)
        (fun w hw => ⟨(h w hw).1, (h w hw).2.1, (h w hw).2.2.1⟩)
    · exact autoWriteFold_preserve cfg remote devices zoneKey target (suffixAfterColon key2)
        l (cur, [], false)
        (fun w hw => ⟨(h w hw).2.2.2.1, (h w hw).2.2.2.2.1, (h w hw).2.2.2.2.2.1⟩)
    · intro s hs
      exact autoWriteFold_preserve cfg remote devices zoneKey target s l (cur, [], false)
        (fun w hw => (h w hw).2.2.2.2.2.2 s hs)

/-- C4 counterexample: two linkable devices mapped to zone 7 whose keys
RU02:Liv and VA02:Liv share the legacy suffix Liv. Device B (index 0)
resolves 2.04 via the shared suffix, within 0.1 of the computed target 2.0,
and gets no write — but the write issued for device A (index 1) also
records the shared alias Liv, so B's resolved offset after the pass is 2.0,
not 2.04: the claim's "its recorded offset stays unchanged" fails. -/
theorem C4_counterexample :
    autoAdjustOffsets
        ⟨["VA", "RU"], ⟨[], []⟩, [("RU02:Liv", "7"), ("VA02:Liv", "7")]⟩
        [("sensor.ref", SensorState.numeric (462/25))]
        (fun _ _ => true)
        ⟨[("VA02:Liv", 5), ("Liv", 51/25)],
          [("7", Value.vStr "sensor.ref")],
          [[("device_key", Value.vStr "RU02:Liv"), ("type", Value.vStr "RU02"),
            ("serialNumber", Value.vStr "S2")],
           [("device_key", Value.vStr "VA02:Liv"), ("type", Value.vStr "VA02"),
            ("serialNumber", Value.vStr "S1")]],
          [(7, some 20)]⟩
        7
      = .ran (462/25) (88/25) 2 [("VA02:Liv", 2), ("Liv", 2)]
          [⟨1, Value.vStr "S1", 2, "VA02:Liv", false⟩]
    ∧ getDeviceOffset [("VA02:Liv", 5), ("Liv", 51/25)]
        [("device_key", Value.vStr "RU02:Liv"), ("type", Value.vStr "RU02"),
         ("serialNumber", Value.vStr "S2")] (some "RU02:Liv") = some (51/25)
    ∧ |(51/25 : ℚ) - 2| < 1/10
    ∧ getDeviceOffset [("VA02:Liv", 2), ("Liv", 2)]
        [("device_key", Value.vStr "RU02:Liv"), ("type", Value.vStr "RU02"),
         ("serialNumber", Value.vStr "S2")] (some "RU02:Liv") = some 2
    ∧ (51/25 : ℚ) ≠ 2 := by
  refine ⟨rfl, rfl, by rw [abs_lt]; constructor <;> norm_num, rfl, by norm_num⟩

/-- Witness for C4 (amended): a device resolving offset 2 with target 2 is
skipped by its step (map and writes untouched); a linkable mapped device
with id S1 and no resolved offset gets exactly the non-propagating write. -/
theorem C4_witness :
    autoWriteStep ⟨["VA"], ⟨[], []⟩, [("VA02:S1", "7")]⟩ (fun _ _ => true) [] "7" 2
        ([("K", 2)], [], false) (0, [("device_key", Value.vStr "K")])
      = ([("K", 2)], [], false)
    ∧ autoWriteStep ⟨["VA"], ⟨[], []⟩, [("VA02:S1", "7")]⟩ (fun _ _ => true) [] "7" 2
        ([], [], false)
        (0, [("device_key", Value.vStr "VA02:S1"), ("type", Value.vStr "VA02"),
             ("serialNumber", Value.vStr "S1")])
      = ([("VA02:S1", 2), ("S1", 2)], [⟨0, Value.vStr "S1", 2, "VA02:S1", false⟩],
         true) := by
  have h1 := (C4_hysteresis_and_writes ⟨["VA"], ⟨[], []⟩, [("VA02:S1", "7")]⟩
    (fun _ _ => true) [] "7" 2 ([("K", 2)], [], false) 0
    [("device_key", Value.vStr "K")] [] [] [] "" 2).1 rfl (by norm_num)
  have h2 := (C4_hysteresis_and_writes ⟨["VA"], ⟨[], []⟩, [("VA02:S1", "7")]⟩
    (fun _ _ => true) [] "7" 2 ([], [], false) 0
    [("device_key", Value.vStr "VA02:S1"), ("type", Value.vStr "VA02"),
     ("serialNumber", Value.vStr "S1")] [] [] [] "" 2).2.1 rfl rfl rfl (Or.inl rfl)
  exact ⟨h1, h2.trans rfl⟩

end TadoX
